import Mathlib

/-!
# Verification of the Klondike solitaire rule engine

Shallow embedding of the core game-state/rules engine of the
`phaser-3-solitaire-tutorial` repository: `Card`, `Deck`, `FoundationPile`
and the `Solitaire` coordinator (`src/lib/card.ts`, `src/lib/deck.ts`,
`src/lib/foundation-pile.ts`, `src/lib/solitaire.ts`).

Modelling notes:

* The 52 `Card` objects are created once (in `Deck.#createDeck`) and are
  never cloned; every pile stores references to those same objects, and
  `Card.flip()` mutates the shared object.  Since card identity is exactly
  the pair (suit, value), we model a card as that pair and model the shared
  mutable `#faceUp` field as a single map `faceUp : Card → Bool` carried in
  the game state.  Flipping a card toggles the map at the card's identity,
  which faithfully reproduces the JS aliasing (the flag travels with the
  card between piles, and survives `Deck.reset`).
* `Deck` and `Solitaire` are merged into one state record `GameState`:
  the `Solitaire` class owns exactly one `Deck`, so the deck's
  `#drawPile`/`#discardPile` become fields of the combined state.
  `Deck.#cards` is never reordered or reassigned after construction, so it
  is the constant list `fullDeck` (identity-wise; its mutable `faceUp`
  flags live in the `faceUp` map).
* `Math.random()` in `shuffleArray` is the only source of nondeterminism;
  it is abstracted as a parameter `rand : Nat → Nat`, and the index
  `Math.floor(Math.random() * i)`, which ranges over `[0, i)`, is embedded
  as `rand i % i` (every value of `[0, i)` and nothing else is reachable).
* All machine numbers in the source are small nonnegative integers
  (ranks 1..13, foundation values 0..13, array indices), embedded as `Nat`.
-/

/-- Modelled from the spec: the file `src/lib/common.ts` (the `CARD_SUIT`
enumeration) is not part of the provided sources; the spec fixes the suit
domain as {spade, club, heart, diamond}.  The enumeration order only
affects the initial order of `Deck.#cards`, which is shuffled before use. -/
inductive Suit where
  | club
  | spade
  | heart
  | diamond
deriving DecidableEq, Repr

/-- Modelled from the spec: the two card colors from `src/lib/common.ts`. -/
inductive CardColor where
  | black
  | red
deriving DecidableEq, Repr

/-- Modelled from the spec: the `CARD_SUIT_TO_COLOR` mapping of
`src/lib/common.ts` — "spade/club → black; heart/diamond → red".
This is `Card.color` (a pure function of the suit, `card.ts` line 26). -/
def suitColor : Suit → CardColor
  | Suit.club => CardColor.black
  | Suit.spade => CardColor.black
  | Suit.heart => CardColor.red
  | Suit.diamond => CardColor.red

/-- A card's immutable identity: `Card.#suit` and `Card.#value`
(`card.ts`).  The mutable `#faceUp` flag of the shared card objects is
modelled by the `faceUp` map in `GameState` (see module docstring). -/
structure Card where
  suit : Suit
  value : Nat
deriving DecidableEq, Repr

/-- The suits in some enumeration order (`Object.values(CARD_SUIT)`;
the concrete order is irrelevant — it feeds a shuffle). -/
def suitList : List Suit := [Suit.club, Suit.spade, Suit.heart, Suit.diamond]

/-- `Deck.#createDeck` (`deck.ts`): for every suit, push cards with values
1,…,13.  This is the identity content of `Deck.#cards`, which is never
reordered or reassigned afterwards. -/
def fullDeck : List Card :=
  suitList.flatMap fun s => (List.range' 1 13).map fun v => { suit := s, value := v }

/-- One iteration of the Fisher–Yates loop body in `shuffleArray`
(`utils.ts`): swap positions `i` and `j`.  In the source both indices are
always in range; the out-of-range fallback is never exercised. -/
def listSwap {α : Type} (l : List α) (i j : Nat) : List α :=
  match l[i]?, l[j]? with
  | some a, some b => (l.set i b).set j a
  | _, _ => l

/-- The loop of `shuffleArray` (`utils.ts`): for `i` from `length - 1`
down to `1`, swap `i` with `j = Math.floor(Math.random() * i) ∈ [0, i)`,
embedded as `rand i % i`.  The second argument is the current index `i`. -/
def shuffleFrom {α : Type} (rand : Nat → Nat) : List α → Nat → List α
  | l, 0 => l
  | l, i + 1 => shuffleFrom rand (listSwap l (i + 1) (rand (i + 1) % (i + 1))) i

/-- `shuffleArray` (`utils.ts`), randomness abstracted as `rand`. -/
def shuffleArray {α : Type} (rand : Nat → Nat) (l : List α) : List α :=
  shuffleFrom rand l (l.length - 1)

/-- The combined state of the `Solitaire` coordinator and its owned
`Deck` and four `FoundationPile`s.  `faceUp` is the shared mutable
`Card.#faceUp` flag of the 52 card objects, keyed by card identity. -/
structure GameState where
  faceUp : Card → Bool
  drawPile : List Card
  discardPile : List Card
  tableauPiles : List (List Card)
  foundationSpade : Nat
  foundationClub : Nat
  foundationHeart : Nat
  foundationDiamond : Nat

namespace Solitaire

/-- `Card.flip()` as a map toggle (see modelling notes). -/
def toggle (f : Card → Bool) (c : Card) : Card → Bool :=
  fun x => if x = c then !(f x) else f x

/-- Flip the shared card object `c` (`card.ts` line 30). -/
def flipCard (s : GameState) (c : Card) : GameState :=
  { s with faceUp := toggle s.faceUp c }

/-- The `value` of the foundation pile matching a suit (the `switch` in
`solitaire.ts` lines 227–267 selects the pile by suit). -/
def foundationValue (s : GameState) : Suit → Nat
  | Suit.club => s.foundationClub
  | Suit.spade => s.foundationSpade
  | Suit.heart => s.foundationHeart
  | Suit.diamond => s.foundationDiamond

/-- `FoundationPile.addCard()` (`foundation-pile.ts`): increment unless
already at 13. -/
def addCard (v : Nat) : Nat :=
  if v = 13 then v else v + 1

/-- `Solitaire.#addCardToFoundation` (`solitaire.ts` lines 227–246). -/
def addCardToFoundation (s : GameState) (c : Card) : GameState :=
  match c.suit with
  | Suit.club => { s with foundationClub := addCard s.foundationClub }
  | Suit.spade => { s with foundationSpade := addCard s.foundationSpade }
  | Suit.heart => { s with foundationHeart := addCard s.foundationHeart }
  | Suit.diamond => { s with foundationDiamond := addCard s.foundationDiamond }

/-- `Solitaire.#isValidMoveToAddCardToFoundation` (`solitaire.ts`
lines 248–267): `card.value === foundationPile.value + 1`. -/
def isValidMoveToAddCardToFoundation (s : GameState) (c : Card) : Bool :=
  c.value == foundationValue s c.suit + 1

/-- `Solitaire.#isValidMoveToAddCardToTableau` (`solitaire.ts`
lines 269–292). -/
def isValidMoveToAddCardToTableau (c : Card) (pile : List Card) : Bool :=
  if pile.length = 0 then
    c.value == 13
  else
    match pile.getLast? with
    | none => false
    | some top =>
      if top.value == 1 then false
      else if suitColor top.suit == suitColor c.suit then false
      else if !(top.value == c.value + 1) then false
      else true

/-- `Deck.draw()` (`deck.ts` line 63): `Array.shift` on the draw pile. -/
def draw (s : GameState) : Option Card × GameState :=
  match s.drawPile with
  | [] => (none, s)
  | c :: rest => (some c, { s with drawPile := rest })

/-- `Solitaire.drawCard()` (`solitaire.ts` lines 89–97). -/
def drawCard (s : GameState) : Bool × GameState :=
  match draw s with
  | (none, _) => (false, s)
  | (some c, s1) =>
    let s2 := flipCard s1 c
    (true, { s2 with discardPile := s2.discardPile ++ [c] })

/-- The `forEach` loop of `Deck.shuffleInDiscardPile` (`deck.ts`
lines 71–77): flip each discard card and append it to the draw pile. -/
def recycleFold : GameState → List Card → GameState
  | s, [] => s
  | s, c :: rest =>
    let s1 := flipCard s c
    recycleFold { s1 with drawPile := s1.drawPile ++ [c] } rest

/-- `Deck.shuffleInDiscardPile()` (`deck.ts` lines 71–77): run the loop
over the discard pile, then clear the discard pile. -/
def shuffleInDiscardPile (s : GameState) : GameState :=
  { recycleFold s s.discardPile with discardPile := [] }

/-- `Solitaire.shuffleDiscardPile()` (`solitaire.ts` lines 99–106). -/
def shuffleDiscardPile (s : GameState) : Bool × GameState :=
  if s.drawPile.length ≠ 0 then (false, s)
  else (true, shuffleInDiscardPile s)

/-- `Solitaire.playDiscardPileCardToFoundation()` (`solitaire.ts`
lines 108–125).  `discardPile[length - 1]` is the last element
(`undefined` when empty); `pop` removes it. -/
def playDiscardPileCardToFoundation (s : GameState) : Bool × GameState :=
  match s.discardPile.getLast? with
  | none => (false, s)
  | some c =>
    if !(isValidMoveToAddCardToFoundation s c) then (false, s)
    else (true, { addCardToFoundation s c with discardPile := s.discardPile.dropLast })

/-- `Solitaire.playDiscardPileCardToTableau(targetTableauIndex)`
(`solitaire.ts` lines 127–149).  An out-of-range index reads `undefined`
and fails. -/
def playDiscardPileCardToTableau (s : GameState) (targetTableauIndex : Nat) :
    Bool × GameState :=
  match s.discardPile.getLast? with
  | none => (false, s)
  | some c =>
    match s.tableauPiles[targetTableauIndex]? with
    | none => (false, s)
    | some targetPile =>
      if !(isValidMoveToAddCardToTableau c targetPile) then (false, s)
      else
        (true,
          { s with
            tableauPiles := s.tableauPiles.set targetTableauIndex (targetPile ++ [c]),
            discardPile := s.discardPile.dropLast })

/-- `Solitaire.flipTopTableauCard(tableauIndex)` (`solitaire.ts`
lines 151–168). -/
def flipTopTableauCard (s : GameState) (tableauIndex : Nat) : Bool × GameState :=
  match s.tableauPiles[tableauIndex]? with
  | none => (false, s)
  | some pile =>
    match pile.getLast? with
    | none => (false, s)
    | some c =>
      if s.faceUp c then (false, s)
      else (true, flipCard s c)

/-- `Solitaire.moveTableauCardsToAnotherTableau(initialTableauIndex,
cardIndex, targetTableauIndex)` (`solitaire.ts` lines 170–202).
`splice(cardIndex)` removes the suffix from `cardIndex`; the removed run
is then pushed onto the (live) target array.  The second `set` re-reads
the target pile so that the `initial = target` aliasing of the JS arrays
is reproduced exactly. -/
def moveTableauCardsToAnotherTableau (s : GameState)
    (initialTableauIndex cardIndex targetTableauIndex : Nat) : Bool × GameState :=
  match s.tableauPiles[initialTableauIndex]?, s.tableauPiles[targetTableauIndex]? with
  | some initialPile, some targetPile =>
    match initialPile[cardIndex]? with
    | none => (false, s)
    | some c =>
      if !(s.faceUp c) then (false, s)
      else if !(isValidMoveToAddCardToTableau c targetPile) then (false, s)
      else
        let cardsToMove := initialPile.drop cardIndex
        let t1 := s.tableauPiles.set initialTableauIndex (initialPile.take cardIndex)
        (true, { s with tableauPiles := t1.set targetTableauIndex ((t1.getD targetTableauIndex []) ++ cardsToMove) })
  | _, _ => (false, s)

/-- `Solitaire.moveTableauCardToFoundation(tableauIndex)` (`solitaire.ts`
lines 204–225). -/
def moveTableauCardToFoundation (s : GameState) (tableauIndex : Nat) : Bool × GameState :=
  match s.tableauPiles[tableauIndex]? with
  | none => (false, s)
  | some pile =>
    match pile.getLast? with
    | none => (false, s)
    | some c =>
      if !(isValidMoveToAddCardToFoundation s c) then (false, s)
      else
        (true,
          { addCardToFoundation s c with
            tableauPiles := s.tableauPiles.set tableauIndex pile.dropLast })

/-- `Deck.reset()` (`deck.ts` lines 79–83): clear the discard pile,
repopulate the draw pile from `#cards`, shuffle in place.  Note that the
cards' `faceUp` flags are NOT touched here — `reset` copies references to
the shared card objects. -/
def reset (rand : Nat → Nat) (s : GameState) : GameState :=
  { s with discardPile := [], drawPile := shuffleArray rand fullDeck }

/-- The iteration order of the dealing double loop in
`Solitaire.newGame()` (`solitaire.ts` lines 78–86): pairs `(i, j)` for
`i = 0..6`, `j = i..6`. -/
def dealPairs : List (Nat × Nat) :=
  (List.range 7).flatMap fun i => (List.range' i (7 - i)).map fun j => (i, j)

/-- The dealing double loop of `Solitaire.newGame()` (`solitaire.ts`
lines 78–86): draw a card, flip it when `j = i`, push it onto tableau
pile `j`.  The `none` branch is unreachable in `newGame` (the freshly
reset draw pile holds 52 ≥ 28 cards; the source would crash there, as it
casts `draw()`'s result with `as Card`). -/
def dealLoop : GameState → List (Nat × Nat) → GameState
  | s, [] => s
  | s, (i, j) :: rest =>
    match draw s with
    | (none, s1) => dealLoop s1 rest
    | (some c, s1) =>
      let s2 := if j = i then flipCard s1 c else s1
      dealLoop
        { s2 with tableauPiles := s2.tableauPiles.set j ((s2.tableauPiles.getD j []) ++ [c]) }
        rest

/-- `Solitaire.newGame()` (`solitaire.ts` lines 57–87): reset the deck,
clear the tableau piles, reset the foundations, then deal. -/
def newGame (rand : Nat → Nat) (s : GameState) : GameState :=
  dealLoop
    { reset rand s with
      tableauPiles := [[], [], [], [], [], [], []],
      foundationClub := 0,
      foundationDiamond := 0,
      foundationHeart := 0,
      foundationSpade := 0 }
    dealPairs

/-- The state built by the `Solitaire` and `Deck` constructors: 52
face-down cards, all in the draw pile (shuffled by the `reset()` call in
the `Deck` constructor, with randomness `rand0`), empty discard pile,
seven empty tableau piles, foundations at 0. -/
def initialState (rand0 : Nat → Nat) : GameState :=
  { faceUp := fun _ => false
    drawPile := shuffleArray rand0 fullDeck
    discardPile := []
    tableauPiles := [[], [], [], [], [], [], []]
    foundationSpade := 0
    foundationClub := 0
    foundationHeart := 0
    foundationDiamond := 0 }

/-- A freshly constructed game immediately after `newGame()`. -/
def newGameState (rand rand0 : Nat → Nat) : GameState :=
  newGame rand (initialState rand0)

/-- The number of occurrences of card `c` anywhere in the state: draw
pile, discard pile, the tableau piles, plus the card implied consumed by
its suit's foundation value (the foundation at value `v` has consumed
ranks `1..v` of its suit). -/
def foundationCount (s : GameState) (c : Card) : Nat :=
  if 1 ≤ c.value ∧ c.value ≤ foundationValue s c.suit then 1 else 0

/-- Total occurrence count of a card identity across all locations. -/
def occ (s : GameState) (c : Card) : Nat :=
  s.drawPile.count c + s.discardPile.count c
    + (s.tableauPiles.map fun p => p.count c).sum
    + foundationCount s c

/-- One application of any of the seven public action methods of
`Solitaire`, with arbitrary arguments. -/
inductive Step : GameState → GameState → Prop where
  | drawCard (s : GameState) : Step s (drawCard s).2
  | shuffleDiscardPile (s : GameState) : Step s (shuffleDiscardPile s).2
  | playDiscardPileCardToFoundation (s : GameState) :
      Step s (playDiscardPileCardToFoundation s).2
  | playDiscardPileCardToTableau (s : GameState) (idx : Nat) :
      Step s (playDiscardPileCardToTableau s idx).2
  | flipTopTableauCard (s : GameState) (idx : Nat) :
      Step s (flipTopTableauCard s idx).2
  | moveTableauCardsToAnotherTableau (s : GameState) (a b c : Nat) :
      Step s (moveTableauCardsToAnotherTableau s a b c).2
  | moveTableauCardToFoundation (s : GameState) (idx : Nat) :
      Step s (moveTableauCardToFoundation s idx).2

/-- States reachable from a freshly constructed game after `newGame()`
by any sequence of the seven action methods. -/
inductive Reachable : GameState → Prop where
  | base (rand rand0 : Nat → Nat) : Reachable (newGameState rand rand0)
  | step {s t : GameState} : Reachable s → Step s t → Reachable t

end Solitaire

namespace Solitaire

/-! ## The shuffle permutes the list -/

theorem cons_set_perm {α : Type} (x : α) :
    ∀ (xs : List α) (j : Nat) (b : α), xs[j]? = some b →
      (b :: xs.set j x).Perm (x :: xs) := by
  intro xs
  induction xs with
  | nil => intro j b h; simp at h
  | cons y t ih =>
    intro j b h
    cases j with
    | zero =>
      simp only [List.getElem?_cons_zero, Option.some.injEq] at h
      subst h
      simp only [List.set_cons_zero]
      exact List.Perm.swap x y t
    | succ k =>
      simp only [List.getElem?_cons_succ] at h
      simp only [List.set_cons_succ]
      exact (List.Perm.swap y b _).trans (((ih k b h).cons y).trans (List.Perm.swap x y t))

theorem set_set_perm {α : Type} :
    ∀ (l : List α) (i j : Nat) (a b : α), l[i]? = some a → l[j]? = some b →
      ((l.set i b).set j a).Perm l := by
  intro l
  induction l with
  | nil => intro i j a b h1 _; simp at h1
  | cons x t ih =>
    intro i j a b h1 h2
    cases i with
    | zero =>
      simp only [List.getElem?_cons_zero, Option.some.injEq] at h1
      subst h1
      cases j with
      | zero =>
        simp only [List.getElem?_cons_zero, Option.some.injEq] at h2
        subst h2
        simp
      | succ k =>
        simp only [List.getElem?_cons_succ] at h2
        simpa using cons_set_perm x t k b h2
    | succ k =>
      cases j with
      | zero =>
        simp only [List.getElem?_cons_zero, Option.some.injEq] at h2
        subst h2
        simp only [List.getElem?_cons_succ] at h1
        simpa using cons_set_perm x t k a h1
      | succ m =>
        simp only [List.getElem?_cons_succ] at h1 h2
        simpa using (ih k m a b h1 h2).cons x

theorem listSwap_perm {α : Type} (l : List α) (i j : Nat) : (listSwap l i j).Perm l := by
  rcases h1 : l[i]? with _ | a <;> rcases h2 : l[j]? with _ | b <;>
    simp only [listSwap, h1, h2] <;> try exact List.Perm.refl l
  exact set_set_perm l i j a b h1 h2

theorem shuffleFrom_perm {α : Type} (rand : Nat → Nat) :
    ∀ (n : Nat) (l : List α), (shuffleFrom rand l n).Perm l := by
  intro n
  induction n with
  | zero => intro l; exact List.Perm.refl l
  | succ i ih =>
    intro l
    exact (ih _).trans (listSwap_perm l (i + 1) (rand (i + 1) % (i + 1)))

theorem shuffleArray_perm {α : Type} (rand : Nat → Nat) (l : List α) :
    (shuffleArray rand l).Perm l :=
  shuffleFrom_perm rand (l.length - 1) l

theorem fullDeck_length : fullDeck.length = 52 := by decide

theorem fullDeck_nodup : fullDeck.Nodup := by decide

theorem shuffleArray_fullDeck_length (rand : Nat → Nat) :
    (shuffleArray rand fullDeck).length = 52 := by
  rw [(shuffleArray_perm rand fullDeck).length_eq, fullDeck_length]

theorem shuffleArray_fullDeck_nodup (rand : Nat → Nat) :
    (shuffleArray rand fullDeck).Nodup :=
  (shuffleArray_perm rand fullDeck).nodup_iff.mpr fullDeck_nodup

/- With an abstract `rand`, unfolding the shuffle produces a huge stuck
term; everything below uses only `shuffleArray_perm` and its corollaries,
so the definition is sealed (the kernel still evaluates it on concrete
arguments, e.g. in the witness theorems, which locally unseal it). -/
attribute [irreducible] shuffleArray

end Solitaire

namespace Solitaire

/-! ## Characterisation of the deal in `newGame` -/

/-- Field-wise extensionality for `GameState`. -/
theorem gameStateExt {s t : GameState}
    (h1 : s.faceUp = t.faceUp) (h2 : s.drawPile = t.drawPile)
    (h3 : s.discardPile = t.discardPile) (h4 : s.tableauPiles = t.tableauPiles)
    (h5 : s.foundationSpade = t.foundationSpade)
    (h6 : s.foundationClub = t.foundationClub)
    (h7 : s.foundationHeart = t.foundationHeart)
    (h8 : s.foundationDiamond = t.foundationDiamond) : s = t := by
  cases s
  cases t
  simp only at h1 h2 h3 h4 h5 h6 h7 h8
  subst h1 h2 h3 h4 h5 h6 h7 h8
  rfl

/-- The `k`-th card of a list (the card dealt `k`-th from the draw pile),
with an arbitrary default for out-of-range indices. -/
def nth (d : List Card) (k : Nat) : Card :=
  d.getD k { suit := Suit.club, value := 1 }

theorem nth_eq_getElem (d : List Card) (k : Nat) (h : k < d.length) :
    nth d k = d[k] := by
  unfold nth
  rw [List.getD_eq_getElem?_getD, List.getElem?_eq_getElem h]
  rfl

theorem nth_inj {d : List Card} (hn : d.Nodup) {i j : Nat}
    (hi : i < d.length) (hj : j < d.length) : nth d i = nth d j ↔ i = j := by
  rw [nth_eq_getElem d i hi, nth_eq_getElem d j hj]
  exact hn.getElem_inj_iff

/-- The draw positions of the seven cards dealt face-up in `newGame`:
round `i` flips the card dealt at position `0 + 7 + 6 + ⋯` — the first
card of each round. -/
def dealFlips (d : List Card) : List Card :=
  [nth d 0, nth d 7, nth d 13, nth d 18, nth d 22, nth d 25, nth d 27]

/-- The tableau piles produced by dealing the prefix of `d` in `newGame`:
pile `p` receives the cards dealt at rounds `0..p`, the round-`p` card
(its last) being the flipped one. -/
def dealtTableau (d : List Card) : List (List Card) :=
  [[nth d 0],
   [nth d 1, nth d 7],
   [nth d 2, nth d 8, nth d 13],
   [nth d 3, nth d 9, nth d 14, nth d 18],
   [nth d 4, nth d 10, nth d 15, nth d 19, nth d 22],
   [nth d 5, nth d 11, nth d 16, nth d 20, nth d 23, nth d 25],
   [nth d 6, nth d 12, nth d 17, nth d 21, nth d 24, nth d 26, nth d 27]]


theorem dealLoop_nil (s : GameState) : dealLoop s [] = s := rfl

/-- One step of the deal loop on an explicit state with a non-empty
draw pile. -/
theorem dealLoop_step (f : Card → Bool) (c : Card) (cs dis : List Card)
    (P : List (List Card)) (f1 f2 f3 f4 i j : Nat) (rest : List (Nat × Nat)) :
    dealLoop ⟨f, c :: cs, dis, P, f1, f2, f3, f4⟩ ((i, j) :: rest) =
      dealLoop ⟨if j = i then toggle f c else f, cs, dis,
        P.set j (P.getD j [] ++ [c]), f1, f2, f3, f4⟩ rest := by
  by_cases h : j = i
  · simp only [dealLoop, draw, flipCard, toggle, if_pos h]
  · simp only [dealLoop, draw, flipCard, toggle, if_neg h]

theorem set7at0 (p0 p1 p2 p3 p4 p5 p6 L : List Card) :
    [p0, p1, p2, p3, p4, p5, p6].set 0 L = [L, p1, p2, p3, p4, p5, p6] := rfl

theorem set7at1 (p0 p1 p2 p3 p4 p5 p6 L : List Card) :
    [p0, p1, p2, p3, p4, p5, p6].set 1 L = [p0, L, p2, p3, p4, p5, p6] := rfl

theorem set7at2 (p0 p1 p2 p3 p4 p5 p6 L : List Card) :
    [p0, p1, p2, p3, p4, p5, p6].set 2 L = [p0, p1, L, p3, p4, p5, p6] := rfl

theorem set7at3 (p0 p1 p2 p3 p4 p5 p6 L : List Card) :
    [p0, p1, p2, p3, p4, p5, p6].set 3 L = [p0, p1, p2, L, p4, p5, p6] := rfl

theorem set7at4 (p0 p1 p2 p3 p4 p5 p6 L : List Card) :
    [p0, p1, p2, p3, p4, p5, p6].set 4 L = [p0, p1, p2, p3, L, p5, p6] := rfl

theorem set7at5 (p0 p1 p2 p3 p4 p5 p6 L : List Card) :
    [p0, p1, p2, p3, p4, p5, p6].set 5 L = [p0, p1, p2, p3, p4, L, p6] := rfl

theorem set7at6 (p0 p1 p2 p3 p4 p5 p6 L : List Card) :
    [p0, p1, p2, p3, p4, p5, p6].set 6 L = [p0, p1, p2, p3, p4, p5, L] := rfl

theorem getD7at0 (p0 p1 p2 p3 p4 p5 p6 : List Card) :
    [p0, p1, p2, p3, p4, p5, p6].getD 0 [] = p0 := rfl

theorem getD7at1 (p0 p1 p2 p3 p4 p5 p6 : List Card) :
    [p0, p1, p2, p3, p4, p5, p6].getD 1 [] = p1 := rfl

theorem getD7at2 (p0 p1 p2 p3 p4 p5 p6 : List Card) :
    [p0, p1, p2, p3, p4, p5, p6].getD 2 [] = p2 := rfl

theorem getD7at3 (p0 p1 p2 p3 p4 p5 p6 : List Card) :
    [p0, p1, p2, p3, p4, p5, p6].getD 3 [] = p3 := rfl

theorem getD7at4 (p0 p1 p2 p3 p4 p5 p6 : List Card) :
    [p0, p1, p2, p3, p4, p5, p6].getD 4 [] = p4 := rfl

theorem getD7at5 (p0 p1 p2 p3 p4 p5 p6 : List Card) :
    [p0, p1, p2, p3, p4, p5, p6].getD 5 [] = p5 := rfl

theorem getD7at6 (p0 p1 p2 p3 p4 p5 p6 : List Card) :
    [p0, p1, p2, p3, p4, p5, p6].getD 6 [] = p6 := rfl

theorem dealPairs_eq :
    dealPairs = [(0, 0), (0, 1), (0, 2), (0, 3), (0, 4), (0, 5), (0, 6), (1, 1), (1, 2), (1, 3), (1, 4), (1, 5), (1, 6), (2, 2), (2, 3), (2, 4), (2, 5), (2, 6), (3, 3), (3, 4), (3, 5), (3, 6), (4, 4), (4, 5), (4, 6), (5, 5), (5, 6), (6, 6)] := rfl

set_option maxHeartbeats 2000000 in
set_option maxRecDepth 8000 in
theorem dealLoop_char (f : Card → Bool) (d : List Card) (hlen : d.length = 52)
    (hnodup : d.Nodup) :
    dealLoop
      { faceUp := f, drawPile := d, discardPile := [],
        tableauPiles := [[], [], [], [], [], [], []],
        foundationSpade := 0, foundationClub := 0,
        foundationHeart := 0, foundationDiamond := 0 } dealPairs =
      { faceUp := fun x => if x ∈ dealFlips d then !(f x) else f x,
        drawPile := d.drop 28, discardPile := [],
        tableauPiles := dealtTableau d,
        foundationSpade := 0, foundationClub := 0,
        foundationHeart := 0, foundationDiamond := 0 } := by
  obtain ⟨a0, d, rfl⟩ : ∃ a t, d = a :: t := by
    cases d with
    | nil => simp at hlen
    | cons a t => exact ⟨a, t, rfl⟩
  obtain ⟨a1, d, rfl⟩ : ∃ a t, d = a :: t := by
    cases d with
    | nil => simp at hlen
    | cons a t => exact ⟨a, t, rfl⟩
  obtain ⟨a2, d, rfl⟩ : ∃ a t, d = a :: t := by
    cases d with
    | nil => simp at hlen
    | cons a t => exact ⟨a, t, rfl⟩
  obtain ⟨a3, d, rfl⟩ : ∃ a t, d = a :: t := by
    cases d with
    | nil => simp at hlen
    | cons a t => exact ⟨a, t, rfl⟩
  obtain ⟨a4, d, rfl⟩ : ∃ a t, d = a :: t := by
    cases d with
    | nil => simp at hlen
    | cons a t => exact ⟨a, t, rfl⟩
  obtain ⟨a5, d, rfl⟩ : ∃ a t, d = a :: t := by
    cases d with
    | nil => simp at hlen
    | cons a t => exact ⟨a, t, rfl⟩
  obtain ⟨a6, d, rfl⟩ : ∃ a t, d = a :: t := by
    cases d with
    | nil => simp at hlen
    | cons a t => exact ⟨a, t, rfl⟩
  obtain ⟨a7, d, rfl⟩ : ∃ a t, d = a :: t := by
    cases d with
    | nil => simp at hlen
    | cons a t => exact ⟨a, t, rfl⟩
  obtain ⟨a8, d, rfl⟩ : ∃ a t, d = a :: t := by
    cases d with
    | nil => simp at hlen
    | cons a t => exact ⟨a, t, rfl⟩
  obtain ⟨a9, d, rfl⟩ : ∃ a t, d = a :: t := by
    cases d with
    | nil => simp at hlen
    | cons a t => exact ⟨a, t, rfl⟩
  obtain ⟨a10, d, rfl⟩ : ∃ a t, d = a :: t := by
    cases d with
    | nil => simp at hlen
    | cons a t => exact ⟨a, t, rfl⟩
  obtain ⟨a11, d, rfl⟩ : ∃ a t, d = a :: t := by
    cases d with
    | nil => simp at hlen
    | cons a t => exact ⟨a, t, rfl⟩
  obtain ⟨a12, d, rfl⟩ : ∃ a t, d = a :: t := by
    cases d with
    | nil => simp at hlen
    | cons a t => exact ⟨a, t, rfl⟩
  obtain ⟨a13, d, rfl⟩ : ∃ a t, d = a :: t := by
    cases d with
    | nil => simp at hlen
    | cons a t => exact ⟨a, t, rfl⟩
  obtain ⟨a14, d, rfl⟩ : ∃ a t, d = a :: t := by
    cases d with
    | nil => simp at hlen
    | cons a t => exact ⟨a, t, rfl⟩
  obtain ⟨a15, d, rfl⟩ : ∃ a t, d = a :: t := by
    cases d with
    | nil => simp at hlen
    | cons a t => exact ⟨a, t, rfl⟩
  obtain ⟨a16, d, rfl⟩ : ∃ a t, d = a :: t := by
    cases d with
    | nil => simp at hlen
    | cons a t => exact ⟨a, t, rfl⟩
  obtain ⟨a17, d, rfl⟩ : ∃ a t, d = a :: t := by
    cases d with
    | nil => simp at hlen
    | cons a t => exact ⟨a, t, rfl⟩
  obtain ⟨a18, d, rfl⟩ : ∃ a t, d = a :: t := by
    cases d with
    | nil => simp at hlen
    | cons a t => exact ⟨a, t, rfl⟩
  obtain ⟨a19, d, rfl⟩ : ∃ a t, d = a :: t := by
    cases d with
    | nil => simp at hlen
    | cons a t => exact ⟨a, t, rfl⟩
  obtain ⟨a20, d, rfl⟩ : ∃ a t, d = a :: t := by
    cases d with
    | nil => simp at hlen
    | cons a t => exact ⟨a, t, rfl⟩
  obtain ⟨a21, d, rfl⟩ : ∃ a t, d = a :: t := by
    cases d with
    | nil => simp at hlen
    | cons a t => exact ⟨a, t, rfl⟩
  obtain ⟨a22, d, rfl⟩ : ∃ a t, d = a :: t := by
    cases d with
    | nil => simp at hlen
    | cons a t => exact ⟨a, t, rfl⟩
  obtain ⟨a23, d, rfl⟩ : ∃ a t, d = a :: t := by
    cases d with
    | nil => simp at hlen
    | cons a t => exact ⟨a, t, rfl⟩
  obtain ⟨a24, d, rfl⟩ : ∃ a t, d = a :: t := by
    cases d with
    | nil => simp at hlen
    | cons a t => exact ⟨a, t, rfl⟩
  obtain ⟨a25, d, rfl⟩ : ∃ a t, d = a :: t := by
    cases d with
    | nil => simp at hlen
    | cons a t => exact ⟨a, t, rfl⟩
  obtain ⟨a26, d, rfl⟩ : ∃ a t, d = a :: t := by
    cases d with
    | nil => simp at hlen
    | cons a t => exact ⟨a, t, rfl⟩
  obtain ⟨a27, d, rfl⟩ : ∃ a t, d = a :: t := by
    cases d with
    | nil => simp at hlen
    | cons a t => exact ⟨a, t, rfl⟩
  simp only [List.nodup_cons] at hnodup
  obtain ⟨h0, h1, h2, h3, h4, h5, h6, h7, h8, h9, h10, h11, h12, h13, h14, h15, h16, h17, h18, h19, h20, h21, h22, h23, h24, h25, h26, h27, -⟩ := hnodup
  have ne_7_0 : a7 ≠ a0 := by intro h; apply h0; rw [← h]; simp
  have ne_13_0 : a13 ≠ a0 := by intro h; apply h0; rw [← h]; simp
  have ne_13_7 : a13 ≠ a7 := by intro h; apply h7; rw [← h]; simp
  have ne_18_0 : a18 ≠ a0 := by intro h; apply h0; rw [← h]; simp
  have ne_18_7 : a18 ≠ a7 := by intro h; apply h7; rw [← h]; simp
  have ne_18_13 : a18 ≠ a13 := by intro h; apply h13; rw [← h]; simp
  have ne_22_0 : a22 ≠ a0 := by intro h; apply h0; rw [← h]; simp
  have ne_22_7 : a22 ≠ a7 := by intro h; apply h7; rw [← h]; simp
  have ne_22_13 : a22 ≠ a13 := by intro h; apply h13; rw [← h]; simp
  have ne_22_18 : a22 ≠ a18 := by intro h; apply h18; rw [← h]; simp
  have ne_25_0 : a25 ≠ a0 := by intro h; apply h0; rw [← h]; simp
  have ne_25_7 : a25 ≠ a7 := by intro h; apply h7; rw [← h]; simp
  have ne_25_13 : a25 ≠ a13 := by intro h; apply h13; rw [← h]; simp
  have ne_25_18 : a25 ≠ a18 := by intro h; apply h18; rw [← h]; simp
  have ne_25_22 : a25 ≠ a22 := by intro h; apply h22; rw [← h]; simp
  have ne_27_0 : a27 ≠ a0 := by intro h; apply h0; rw [← h]; simp
  have ne_27_7 : a27 ≠ a7 := by intro h; apply h7; rw [← h]; simp
  have ne_27_13 : a27 ≠ a13 := by intro h; apply h13; rw [← h]; simp
  have ne_27_18 : a27 ≠ a18 := by intro h; apply h18; rw [← h]; simp
  have ne_27_22 : a27 ≠ a22 := by intro h; apply h22; rw [← h]; simp
  have ne_27_25 : a27 ≠ a25 := by intro h; apply h25; rw [← h]; simp
  simp only [dealPairs_eq, dealLoop_step, dealLoop_nil,
    set7at0, set7at1, set7at2, set7at3, set7at4, set7at5, set7at6,
    getD7at0, getD7at1, getD7at2, getD7at3, getD7at4, getD7at5, getD7at6,
    List.nil_append, List.cons_append, List.append_nil,
    reduceIte]
  refine gameStateExt ?_ rfl rfl rfl rfl rfl rfl rfl
  show toggle (toggle (toggle (toggle (toggle (toggle (toggle f a0) a7) a13) a18) a22) a25) a27
      = fun x => if x ∈ [a0, a7, a13, a18, a22, a25, a27] then !(f x) else f x
  funext x
  by_cases h_27 : x = a27
  · subst h_27; simp [toggle, ne_27_0, ne_27_7, ne_27_13, ne_27_18, ne_27_22, ne_27_25]
  by_cases h_25 : x = a25
  · subst h_25; simp [toggle, h_27, ne_25_0, ne_25_7, ne_25_13, ne_25_18, ne_25_22]
  by_cases h_22 : x = a22
  · subst h_22; simp [toggle, h_27, h_25, ne_22_0, ne_22_7, ne_22_13, ne_22_18]
  by_cases h_18 : x = a18
  · subst h_18; simp [toggle, h_27, h_25, h_22, ne_18_0, ne_18_7, ne_18_13]
  by_cases h_13 : x = a13
  · subst h_13; simp [toggle, h_27, h_25, h_22, h_18, ne_13_0, ne_13_7]
  by_cases h_7 : x = a7
  · subst h_7; simp [toggle, h_27, h_25, h_22, h_18, h_13, ne_7_0]
  by_cases h_0 : x = a0
  · subst h_0; simp [toggle, h_27, h_25, h_22, h_18, h_13, h_7]
  simp [toggle, h_27, h_25, h_22, h_18, h_13, h_7, h_0]

set_option maxRecDepth 100000 in
/-- `newGame` unfolded to the deal loop on the shuffled deck. -/
theorem newGame_eq (rand : Nat → Nat) (s : GameState) :
    newGame rand s =
      dealLoop
        { faceUp := s.faceUp, drawPile := shuffleArray rand fullDeck,
          discardPile := [],
          tableauPiles := [[], [], [], [], [], [], []],
          foundationSpade := 0, foundationClub := 0,
          foundationHeart := 0, foundationDiamond := 0 } dealPairs := by
  unfold newGame
  refine congrArg (fun st => dealLoop st dealPairs) ?_
  exact gameStateExt rfl rfl rfl rfl rfl rfl rfl rfl

/-- Closed form of `newGame`. -/
theorem newGame_char (rand : Nat → Nat) (s : GameState) :
    newGame rand s =
      { faceUp := fun x => if x ∈ dealFlips (shuffleArray rand fullDeck)
          then !(s.faceUp x) else s.faceUp x,
        drawPile := (shuffleArray rand fullDeck).drop 28, discardPile := [],
        tableauPiles := dealtTableau (shuffleArray rand fullDeck),
        foundationSpade := 0, foundationClub := 0,
        foundationHeart := 0, foundationDiamond := 0 } := by
  rw [newGame_eq]
  exact dealLoop_char s.faceUp (shuffleArray rand fullDeck)
    (shuffleArray_fullDeck_length rand) (shuffleArray_fullDeck_nodup rand)

end Solitaire

namespace Solitaire

/-! ## Card conservation -/

theorem count_sum_set (c : Card) :
    ∀ (piles : List (List Card)) (j : Nat) (pj L : List Card), piles[j]? = some pj →
      ((piles.set j L).map fun p => p.count c).sum + pj.count c
        = (piles.map fun p => p.count c).sum + L.count c := by
  intro piles
  induction piles with
  | nil => intro j pj L h; simp at h
  | cons q qs ih =>
    intro j pj L h
    cases j with
    | zero =>
      simp only [List.getElem?_cons_zero, Option.some.injEq] at h
      subst h
      simp only [List.set_cons_zero, List.map_cons, List.sum_cons]
      omega
    | succ k =>
      simp only [List.getElem?_cons_succ] at h
      simp only [List.set_cons_succ, List.map_cons, List.sum_cons]
      have := ih k pj L h
      omega

theorem recycleFold_spec :
    ∀ (l : List Card) (s : GameState),
      (recycleFold s l).drawPile = s.drawPile ++ l ∧
      (recycleFold s l).discardPile = s.discardPile ∧
      (recycleFold s l).tableauPiles = s.tableauPiles ∧
      (recycleFold s l).foundationSpade = s.foundationSpade ∧
      (recycleFold s l).foundationClub = s.foundationClub ∧
      (recycleFold s l).foundationHeart = s.foundationHeart ∧
      (recycleFold s l).foundationDiamond = s.foundationDiamond := by
  intro l
  induction l with
  | nil => intro s; simp [recycleFold]
  | cons c rest ih =>
    intro s
    simp only [recycleFold, flipCard]
    have h := ih { s with faceUp := toggle s.faceUp c, drawPile := s.drawPile ++ [c] }
    simp only at h
    simp [h]

theorem recycleFold_faceUp :
    ∀ (l : List Card) (s : GameState) (x : Card),
      (recycleFold s l).faceUp x =
        if List.count x l % 2 = 1 then !(s.faceUp x) else s.faceUp x := by
  intro l
  induction l with
  | nil => intro s x; simp [recycleFold]
  | cons c rest ih =>
    intro s x
    simp only [recycleFold, flipCard]
    rw [ih]
    simp only [toggle]
    by_cases hx : x = c
    · subst hx
      have hcc : List.count x (x :: rest) = List.count x rest + 1 := by
        simp [List.count_cons]
      rw [hcc, if_pos rfl]
      by_cases hp : List.count x rest % 2 = 1
      · rw [if_pos hp, if_neg (show ¬(List.count x rest + 1) % 2 = 1 by omega)]
        simp
      · rw [if_neg hp, if_pos (show (List.count x rest + 1) % 2 = 1 by omega)]
    · rw [if_neg hx]
      have hcx : (c == x) = false := by
        simp only [beq_eq_false_iff_ne, ne_eq]
        exact fun h => hx h.symm
      simp [List.count_cons, hcx]

end Solitaire

namespace Solitaire

theorem foundationValue_addCard (s : GameState) (a : Card)
    (h13 : foundationValue s a.suit ≠ 13) (su : Suit) :
    foundationValue (addCardToFoundation s a) su =
      if su = a.suit then foundationValue s su + 1 else foundationValue s su := by
  rcases a with ⟨sa, va⟩
  cases sa <;> cases su <;>
    simp_all [addCardToFoundation, addCard, foundationValue]

theorem foundationCount_addCard (s : GameState) (a c : Card)
    (hva : a.value = foundationValue s a.suit + 1) (hle : a.value ≤ 13) :
    foundationCount (addCardToFoundation s a) c =
      foundationCount s c + (if c = a then 1 else 0) := by
  rcases a with ⟨sa, va⟩
  rcases c with ⟨sc, vc⟩
  simp only at hva hle
  cases sa <;> cases sc <;>
    simp only [foundationCount, addCardToFoundation, addCard, foundationValue,
      Card.mk.injEq] at * <;>
    split_ifs <;> simp_all <;> omega

end Solitaire

namespace Solitaire

/-! ## Equations for the action methods -/

theorem drawCard_eq_nil (s : GameState) (h : s.drawPile = []) :
    drawCard s = (false, s) := by
  unfold drawCard draw
  rw [h]

theorem drawCard_eq_cons (s : GameState) (a : Card) (rest : List Card)
    (h : s.drawPile = a :: rest) :
    drawCard s =
      (true,
        { s with
          faceUp := toggle s.faceUp a,
          drawPile := rest,
          discardPile := s.discardPile ++ [a] }) := by
  unfold drawCard draw flipCard
  rw [h]

theorem shuffleDiscardPile_eq_nonempty (s : GameState) (h : s.drawPile ≠ []) :
    shuffleDiscardPile s = (false, s) := by
  unfold shuffleDiscardPile
  rw [if_pos (by simpa using h)]

theorem shuffleDiscardPile_eq_empty (s : GameState) (h : s.drawPile = []) :
    shuffleDiscardPile s = (true, shuffleInDiscardPile s) := by
  unfold shuffleDiscardPile
  rw [if_neg (by simp [h])]

theorem playDiscardPileCardToFoundation_eq_none (s : GameState)
    (h : s.discardPile.getLast? = none) :
    playDiscardPileCardToFoundation s = (false, s) := by
  unfold playDiscardPileCardToFoundation
  rw [h]

theorem playDiscardPileCardToFoundation_eq_invalid (s : GameState) (a : Card)
    (h : s.discardPile.getLast? = some a)
    (hv : isValidMoveToAddCardToFoundation s a = false) :
    playDiscardPileCardToFoundation s = (false, s) := by
  unfold playDiscardPileCardToFoundation
  rw [h]
  dsimp only
  rw [hv]
  rfl

theorem playDiscardPileCardToFoundation_eq_valid (s : GameState) (a : Card)
    (h : s.discardPile.getLast? = some a)
    (hv : isValidMoveToAddCardToFoundation s a = true) :
    playDiscardPileCardToFoundation s =
      (true, { addCardToFoundation s a with discardPile := s.discardPile.dropLast }) := by
  unfold playDiscardPileCardToFoundation
  rw [h]
  dsimp only
  rw [hv]
  rfl

theorem playDiscardPileCardToTableau_eq_none (s : GameState) (idx : Nat)
    (h : s.discardPile.getLast? = none) :
    playDiscardPileCardToTableau s idx = (false, s) := by
  unfold playDiscardPileCardToTableau
  rw [h]

theorem playDiscardPileCardToTableau_eq_badIdx (s : GameState) (idx : Nat) (a : Card)
    (h : s.discardPile.getLast? = some a) (hidx : s.tableauPiles[idx]? = none) :
    playDiscardPileCardToTableau s idx = (false, s) := by
  unfold playDiscardPileCardToTableau
  rw [h]
  dsimp only
  rw [hidx]

theorem playDiscardPileCardToTableau_eq_invalid (s : GameState) (idx : Nat)
    (a : Card) (pile : List Card)
    (h : s.discardPile.getLast? = some a) (hidx : s.tableauPiles[idx]? = some pile)
    (hv : isValidMoveToAddCardToTableau a pile = false) :
    playDiscardPileCardToTableau s idx = (false, s) := by
  unfold playDiscardPileCardToTableau
  rw [h]
  dsimp only
  rw [hidx]
  dsimp only
  rw [hv]
  rfl

theorem playDiscardPileCardToTableau_eq_valid (s : GameState) (idx : Nat)
    (a : Card) (pile : List Card)
    (h : s.discardPile.getLast? = some a) (hidx : s.tableauPiles[idx]? = some pile)
    (hv : isValidMoveToAddCardToTableau a pile = true) :
    playDiscardPileCardToTableau s idx =
      (true,
        { s with
          tableauPiles := s.tableauPiles.set idx (pile ++ [a]),
          discardPile := s.discardPile.dropLast }) := by
  unfold playDiscardPileCardToTableau
  rw [h]
  dsimp only
  rw [hidx]
  dsimp only
  rw [hv]
  rfl

theorem flipTopTableauCard_eq_badIdx (s : GameState) (idx : Nat)
    (hidx : s.tableauPiles[idx]? = none) :
    flipTopTableauCard s idx = (false, s) := by
  unfold flipTopTableauCard
  rw [hidx]

theorem flipTopTableauCard_eq_empty (s : GameState) (idx : Nat) (pile : List Card)
    (hidx : s.tableauPiles[idx]? = some pile) (hp : pile.getLast? = none) :
    flipTopTableauCard s idx = (false, s) := by
  unfold flipTopTableauCard
  rw [hidx]
  dsimp only
  rw [hp]

theorem flipTopTableauCard_eq_faceUp (s : GameState) (idx : Nat) (pile : List Card)
    (a : Card) (hidx : s.tableauPiles[idx]? = some pile) (hp : pile.getLast? = some a)
    (hf : s.faceUp a = true) :
    flipTopTableauCard s idx = (false, s) := by
  unfold flipTopTableauCard
  rw [hidx]
  dsimp only
  rw [hp]
  dsimp only
  rw [hf]
  rfl

theorem flipTopTableauCard_eq_faceDown (s : GameState) (idx : Nat) (pile : List Card)
    (a : Card) (hidx : s.tableauPiles[idx]? = some pile) (hp : pile.getLast? = some a)
    (hf : s.faceUp a = false) :
    flipTopTableauCard s idx = (true, { s with faceUp := toggle s.faceUp a }) := by
  unfold flipTopTableauCard flipCard
  rw [hidx]
  dsimp only
  rw [hp]
  dsimp only
  rw [hf]
  rfl

theorem moveTableauCardsToAnotherTableau_eq_badIdx (s : GameState) (src ci dst : Nat)
    (h : s.tableauPiles[src]? = none ∨ s.tableauPiles[dst]? = none) :
    moveTableauCardsToAnotherTableau s src ci dst = (false, s) := by
  unfold moveTableauCardsToAnotherTableau
  rcases h with h | h
  · rw [h]
  · rw [h]
    rcases hsrc : s.tableauPiles[src]? with _ | ip
    · rfl
    · rfl

theorem moveTableauCardsToAnotherTableau_eq_noCard (s : GameState) (src ci dst : Nat)
    (ip tp : List Card)
    (hs : s.tableauPiles[src]? = some ip) (ht : s.tableauPiles[dst]? = some tp)
    (hc : ip[ci]? = none) :
    moveTableauCardsToAnotherTableau s src ci dst = (false, s) := by
  unfold moveTableauCardsToAnotherTableau
  rw [hs, ht]
  dsimp only
  rw [hc]

theorem moveTableauCardsToAnotherTableau_eq_faceDown (s : GameState) (src ci dst : Nat)
    (ip tp : List Card) (a : Card)
    (hs : s.tableauPiles[src]? = some ip) (ht : s.tableauPiles[dst]? = some tp)
    (hc : ip[ci]? = some a) (hf : s.faceUp a = false) :
    moveTableauCardsToAnotherTableau s src ci dst = (false, s) := by
  unfold moveTableauCardsToAnotherTableau
  rw [hs, ht]
  dsimp only
  rw [hc]
  dsimp only
  rw [hf]
  rfl

theorem moveTableauCardsToAnotherTableau_eq_invalid (s : GameState) (src ci dst : Nat)
    (ip tp : List Card) (a : Card)
    (hs : s.tableauPiles[src]? = some ip) (ht : s.tableauPiles[dst]? = some tp)
    (hc : ip[ci]? = some a) (hf : s.faceUp a = true)
    (hv : isValidMoveToAddCardToTableau a tp = false) :
    moveTableauCardsToAnotherTableau s src ci dst = (false, s) := by
  unfold moveTableauCardsToAnotherTableau
  rw [hs, ht]
  dsimp only
  rw [hc]
  dsimp only
  rw [hf, hv]
  rfl

theorem moveTableauCardsToAnotherTableau_eq_valid (s : GameState) (src ci dst : Nat)
    (ip tp : List Card) (a : Card)
    (hs : s.tableauPiles[src]? = some ip) (ht : s.tableauPiles[dst]? = some tp)
    (hc : ip[ci]? = some a) (hf : s.faceUp a = true)
    (hv : isValidMoveToAddCardToTableau a tp = true) :
    moveTableauCardsToAnotherTableau s src ci dst =
      (true,
        { s with
          tableauPiles :=
            (s.tableauPiles.set src (ip.take ci)).set dst
              (((s.tableauPiles.set src (ip.take ci)).getD dst []) ++ ip.drop ci) }) := by
  unfold moveTableauCardsToAnotherTableau
  rw [hs, ht]
  dsimp only
  rw [hc]
  dsimp only
  rw [hf, hv]
  rfl

theorem moveTableauCardToFoundation_eq_badIdx (s : GameState) (idx : Nat)
    (hidx : s.tableauPiles[idx]? = none) :
    moveTableauCardToFoundation s idx = (false, s) := by
  unfold moveTableauCardToFoundation
  rw [hidx]

theorem moveTableauCardToFoundation_eq_empty (s : GameState) (idx : Nat)
    (pile : List Card) (hidx : s.tableauPiles[idx]? = some pile)
    (hp : pile.getLast? = none) :
    moveTableauCardToFoundation s idx = (false, s) := by
  unfold moveTableauCardToFoundation
  rw [hidx]
  dsimp only
  rw [hp]

theorem moveTableauCardToFoundation_eq_invalid (s : GameState) (idx : Nat)
    (pile : List Card) (a : Card) (hidx : s.tableauPiles[idx]? = some pile)
    (hp : pile.getLast? = some a)
    (hv : isValidMoveToAddCardToFoundation s a = false) :
    moveTableauCardToFoundation s idx = (false, s) := by
  unfold moveTableauCardToFoundation
  rw [hidx]
  dsimp only
  rw [hp]
  dsimp only
  rw [hv]
  rfl

theorem moveTableauCardToFoundation_eq_valid (s : GameState) (idx : Nat)
    (pile : List Card) (a : Card) (hidx : s.tableauPiles[idx]? = some pile)
    (hp : pile.getLast? = some a)
    (hv : isValidMoveToAddCardToFoundation s a = true) :
    moveTableauCardToFoundation s idx =
      (true,
        { addCardToFoundation s a with
          tableauPiles := s.tableauPiles.set idx pile.dropLast }) := by
  unfold moveTableauCardToFoundation
  rw [hidx]
  dsimp only
  rw [hp]
  dsimp only
  rw [hv]
  rfl

end Solitaire

namespace Solitaire

theorem mem_fullDeck_value {c : Card} (h : c ∈ fullDeck) :
    1 ≤ c.value ∧ c.value ≤ 13 := by
  fin_cases h <;> decide

theorem count_fullDeck (su : Suit) (v : Nat) :
    fullDeck.count ⟨su, v⟩ = if 1 ≤ v ∧ v ≤ 13 then 1 else 0 := by
  by_cases h : 1 ≤ v ∧ v ≤ 13
  · rw [if_pos h]
    obtain ⟨h1, h2⟩ := h
    interval_cases v <;> cases su <;> decide
  · rw [if_neg h]
    rw [List.count_eq_zero_of_not_mem]
    intro hm
    exact h (mem_fullDeck_value hm)

theorem occ_congr_piles {c : Card} {s t : GameState}
    (hpiles : s.drawPile.count c + s.discardPile.count c
        + (s.tableauPiles.map fun p => p.count c).sum
      = t.drawPile.count c + t.discardPile.count c
        + (t.tableauPiles.map fun p => p.count c).sum)
    (h5 : s.foundationSpade = t.foundationSpade)
    (h6 : s.foundationClub = t.foundationClub)
    (h7 : s.foundationHeart = t.foundationHeart)
    (h8 : s.foundationDiamond = t.foundationDiamond) :
    occ s c = occ t c := by
  unfold occ
  have hfc : foundationCount s c = foundationCount t c := by
    rcases c with ⟨sc, vc⟩
    cases sc <;> simp [foundationCount, foundationValue, h5, h6, h7, h8]
  omega

theorem addCardToFoundation_fields (s : GameState) (a : Card) :
    (addCardToFoundation s a).faceUp = s.faceUp ∧
    (addCardToFoundation s a).drawPile = s.drawPile ∧
    (addCardToFoundation s a).discardPile = s.discardPile ∧
    (addCardToFoundation s a).tableauPiles = s.tableauPiles := by
  rcases a with ⟨sa, va⟩
  cases sa <;> simp [addCardToFoundation]

theorem sum_count_ge (piles : List (List Card)) (j : Nat) (pile : List Card)
    (h : piles[j]? = some pile) (c : Card) :
    pile.count c ≤ (piles.map fun p => p.count c).sum := by
  have hm : pile ∈ piles := List.getElem?_mem h
  have hmm : pile.count c ∈ piles.map (fun p => p.count c) :=
    List.mem_map.mpr ⟨pile, hm, rfl⟩
  exact List.single_le_sum (fun x _ => Nat.zero_le x) _ hmm

theorem occ_drawCard (s : GameState) (c : Card) :
    occ (drawCard s).2 c = occ s c := by
  rcases hd : s.drawPile with _ | ⟨a, rest⟩
  · rw [drawCard_eq_nil s hd]
  · rw [drawCard_eq_cons s a rest hd]
    refine occ_congr_piles ?_ rfl rfl rfl rfl
    dsimp only
    rw [hd]
    simp only [List.count_append, List.count_cons, List.count_singleton,
      List.count_nil]
    omega

theorem occ_shuffleDiscardPile (s : GameState) (c : Card) :
    occ (shuffleDiscardPile s).2 c = occ s c := by
  by_cases hd : s.drawPile = []
  · rw [shuffleDiscardPile_eq_empty s hd]
    obtain ⟨e1, e2, e3, e4, e5, e6, e7⟩ := recycleFold_spec s.discardPile s
    unfold shuffleInDiscardPile
    refine occ_congr_piles ?_ e4 e5 e6 e7
    dsimp only
    rw [e1, e3, hd]
    simp only [List.count_append, List.count_nil]
    omega
  · rw [shuffleDiscardPile_eq_nonempty s hd]

end Solitaire

namespace Solitaire

theorem isValid_foundation_value {s : GameState} {a : Card}
    (hv : isValidMoveToAddCardToFoundation s a = true) :
    a.value = foundationValue s a.suit + 1 := by
  simpa [isValidMoveToAddCardToFoundation] using hv

theorem getLast?_mem_self {l : List Card} {a : Card} (h : l.getLast? = some a) :
    a ∈ l := by
  have hd := List.dropLast_append_getLast? a (by rw [h]; rfl)
  rw [← hd]
  simp

theorem value_le_13_of_count_pos {s : GameState} {a : Card}
    (hinv : ∀ x, occ s x = fullDeck.count x) (hpos : 1 ≤ occ s a) :
    a.value ≤ 13 := by
  by_contra hgt
  have h2 := hinv a
  rcases a with ⟨sa, va⟩
  rw [count_fullDeck] at h2
  simp only at hgt
  rw [if_neg (by omega)] at h2
  omega

theorem occ_playDiscardPileCardToFoundation (s : GameState)
    (hinv : ∀ x, occ s x = fullDeck.count x) (c : Card) :
    occ (playDiscardPileCardToFoundation s).2 c = occ s c := by
  rcases hL : s.discardPile.getLast? with _ | a
  · rw [playDiscardPileCardToFoundation_eq_none s hL]
  · rcases hv : isValidMoveToAddCardToFoundation s a with _ | _
    · rw [playDiscardPileCardToFoundation_eq_invalid s a hL hv]
    · rw [playDiscardPileCardToFoundation_eq_valid s a hL hv]
      have hva := isValid_foundation_value hv
      have hdec : s.discardPile.dropLast ++ [a] = s.discardPile :=
        List.dropLast_append_getLast? a (by rw [hL]; rfl)
      have hmem : a ∈ s.discardPile := getLast?_mem_self hL
      have hle : a.value ≤ 13 := by
        refine value_le_13_of_count_pos hinv ?_
        have h1 : 1 ≤ s.discardPile.count a := List.count_pos_iff.mpr hmem
        unfold occ
        omega
      obtain ⟨f1, f2, f3, f4⟩ := addCardToFoundation_fields s a
      simp only [occ]
      have hfc : foundationCount
          { addCardToFoundation s a with discardPile := s.discardPile.dropLast } c
          = foundationCount (addCardToFoundation s a) c := by
        rcases c with ⟨sc, vc⟩
        cases sc <;> rfl
      rw [hfc, foundationCount_addCard s a c hva hle]
      rw [f2, f4]
      have hcnt : List.count c s.discardPile
          = List.count c s.discardPile.dropLast + (if (a == c) = true then 1 else 0) := by
        conv_lhs => rw [← hdec]
        simp [List.count_append, List.count_singleton]
      rw [hcnt]
      by_cases hca : c = a
      · subst hca
        simp only [beq_self_eq_true, if_pos rfl, if_true]
        omega
      · have hac : (a == c) = false := by
          simp only [beq_eq_false_iff_ne, ne_eq]
          exact fun h => hca h.symm
        rw [if_neg hca, hac]
        simp only [Bool.false_eq_true, if_false]
        omega

end Solitaire

namespace Solitaire

theorem occ_playDiscardPileCardToTableau (s : GameState) (idx : Nat) (c : Card) :
    occ (playDiscardPileCardToTableau s idx).2 c = occ s c := by
  rcases hL : s.discardPile.getLast? with _ | a
  · rw [playDiscardPileCardToTableau_eq_none s idx hL]
  · rcases hidx : s.tableauPiles[idx]? with _ | pile
    · rw [playDiscardPileCardToTableau_eq_badIdx s idx a hL hidx]
    · rcases hv : isValidMoveToAddCardToTableau a pile with _ | _
      · rw [playDiscardPileCardToTableau_eq_invalid s idx a pile hL hidx hv]
      · rw [playDiscardPileCardToTableau_eq_valid s idx a pile hL hidx hv]
        have hdec : s.discardPile.dropLast ++ [a] = s.discardPile :=
          List.dropLast_append_getLast? a (by rw [hL]; rfl)
        have hsum := count_sum_set c s.tableauPiles idx pile (pile ++ [a]) hidx
        refine occ_congr_piles ?_ rfl rfl rfl rfl
        dsimp only
        have hcnt : List.count c s.discardPile
            = List.count c s.discardPile.dropLast
              + (if (a == c) = true then 1 else 0) := by
          conv_lhs => rw [← hdec]
          simp [List.count_append, List.count_singleton]
        rw [hcnt]
        rw [List.count_append, List.count_singleton] at hsum
        omega

theorem occ_flipTopTableauCard (s : GameState) (idx : Nat) (c : Card) :
    occ (flipTopTableauCard s idx).2 c = occ s c := by
  rcases hidx : s.tableauPiles[idx]? with _ | pile
  · rw [flipTopTableauCard_eq_badIdx s idx hidx]
  · rcases hp : pile.getLast? with _ | a
    · rw [flipTopTableauCard_eq_empty s idx pile hidx hp]
    · rcases hf : s.faceUp a with _ | _
      · rw [flipTopTableauCard_eq_faceDown s idx pile a hidx hp hf]
        exact occ_congr_piles rfl rfl rfl rfl rfl
      · rw [flipTopTableauCard_eq_faceUp s idx pile a hidx hp hf]

theorem occ_moveTableauCardsToAnotherTableau (s : GameState) (src ci dst : Nat)
    (c : Card) :
    occ (moveTableauCardsToAnotherTableau s src ci dst).2 c = occ s c := by
  rcases hs : s.tableauPiles[src]? with _ | ip
  · rw [moveTableauCardsToAnotherTableau_eq_badIdx s src ci dst (Or.inl hs)]
  · rcases ht : s.tableauPiles[dst]? with _ | tp
    · rw [moveTableauCardsToAnotherTableau_eq_badIdx s src ci dst (Or.inr ht)]
    · rcases hc : ip[ci]? with _ | a
      · rw [moveTableauCardsToAnotherTableau_eq_noCard s src ci dst ip tp hs ht hc]
      · rcases hf : s.faceUp a with _ | _
        · rw [moveTableauCardsToAnotherTableau_eq_faceDown s src ci dst ip tp a hs ht hc hf]
        · rcases hv : isValidMoveToAddCardToTableau a tp with _ | _
          · rw [moveTableauCardsToAnotherTableau_eq_invalid s src ci dst ip tp a hs ht hc hf hv]
          · rw [moveTableauCardsToAnotherTableau_eq_valid s src ci dst ip tp a hs ht hc hf hv]
            obtain ⟨hsrcLt, -⟩ := List.getElem?_eq_some_iff.mp hs
            refine occ_congr_piles ?_ rfl rfl rfl rfl
            dsimp only
            have hsum1 := count_sum_set c s.tableauPiles src ip (ip.take ci) hs
            have htd : (ip.take ci).count c + (ip.drop ci).count c = ip.count c := by
              rw [← List.count_append, List.take_append_drop]
            by_cases hsd : src = dst
            · subst hsd
              have hq1 : (s.tableauPiles.set src (ip.take ci))[src]? = some (ip.take ci) :=
                List.getElem?_set_self hsrcLt
              have hq2 : (s.tableauPiles.set src (ip.take ci)).getD src [] = ip.take ci := by
                rw [List.getD_eq_getElem?_getD, hq1]
                rfl
              rw [hq2]
              have hsum2 := count_sum_set c (s.tableauPiles.set src (ip.take ci)) src
                (ip.take ci) (ip.take ci ++ ip.drop ci) hq1
              rw [List.count_append] at hsum2
              omega
            · have hq1 : (s.tableauPiles.set src (ip.take ci))[dst]? = some tp := by
                rw [List.getElem?_set_ne hsd, ht]
              have hq2 : (s.tableauPiles.set src (ip.take ci)).getD dst [] = tp := by
                rw [List.getD_eq_getElem?_getD, hq1]
                rfl
              rw [hq2]
              have hsum2 := count_sum_set c (s.tableauPiles.set src (ip.take ci)) dst
                tp (tp ++ ip.drop ci) hq1
              rw [List.count_append] at hsum2
              omega

theorem occ_moveTableauCardToFoundation (s : GameState) (idx : Nat)
    (hinv : ∀ x, occ s x = fullDeck.count x) (c : Card) :
    occ (moveTableauCardToFoundation s idx).2 c = occ s c := by
  rcases hidx : s.tableauPiles[idx]? with _ | pile
  · rw [moveTableauCardToFoundation_eq_badIdx s idx hidx]
  · rcases hp : pile.getLast? with _ | a
    · rw [moveTableauCardToFoundation_eq_empty s idx pile hidx hp]
    · rcases hv : isValidMoveToAddCardToFoundation s a with _ | _
      · rw [moveTableauCardToFoundation_eq_invalid s idx pile a hidx hp hv]
      · rw [moveTableauCardToFoundation_eq_valid s idx pile a hidx hp hv]
        have hva := isValid_foundation_value hv
        have hdec : pile.dropLast ++ [a] = pile :=
          List.dropLast_append_getLast? a (by rw [hp]; rfl)
        have hmem : a ∈ pile := getLast?_mem_self hp
        have hle : a.value ≤ 13 := by
          refine value_le_13_of_count_pos hinv ?_
          have h1 : 1 ≤ pile.count a := List.count_pos_iff.mpr hmem
          have h2 := sum_count_ge s.tableauPiles idx pile hidx a
          unfold occ
          omega
        obtain ⟨f1, f2, f3, f4⟩ := addCardToFoundation_fields s a
        have hsum := count_sum_set c s.tableauPiles idx pile pile.dropLast hidx
        simp only [occ]
        have hfc : foundationCount
            { addCardToFoundation s a with
              tableauPiles := s.tableauPiles.set idx pile.dropLast } c
            = foundationCount (addCardToFoundation s a) c := by
          rcases c with ⟨sc, vc⟩
          cases sc <;> rfl
        rw [hfc, foundationCount_addCard s a c hva hle]
        rw [f2, f3]
        have hcnt : List.count c pile
            = List.count c pile.dropLast + (if (a == c) = true then 1 else 0) := by
          conv_lhs => rw [← hdec]
          simp [List.count_append, List.count_singleton]
        rw [hcnt] at hsum
        by_cases hca : c = a
        · subst hca
          simp only [beq_self_eq_true, if_pos rfl, if_true] at hsum ⊢
          omega
        · have hac : (a == c) = false := by
            simp only [beq_eq_false_iff_ne, ne_eq]
            exact fun h => hca h.symm
          rw [if_neg hca]
          rw [hac] at hsum
          simp only [Bool.false_eq_true, if_false] at hsum
          omega

end Solitaire

namespace Solitaire

theorem dealLoop_none (s : GameState) (i j : Nat) (rest : List (Nat × Nat))
    (hdraw : s.drawPile = []) :
    dealLoop s ((i, j) :: rest) = dealLoop s rest := by
  have hd : draw s = (none, s) := by
    unfold draw
    rw [hdraw]
  conv_lhs => rw [dealLoop]
  rw [hd]

theorem occ_dealLoop :
    ∀ (P : List (Nat × Nat)) (s : GameState),
      (∀ p ∈ P, p.2 < s.tableauPiles.length) →
      ∀ c, occ (dealLoop s P) c = occ s c := by
  intro P
  induction P with
  | nil => intro s _ c; rfl
  | cons hd rest ih =>
    rcases hd with ⟨i, j⟩
    intro s hP c
    obtain ⟨f, dp, dis, piles, f1, f2, f3, f4⟩ := s
    rcases hdraw : dp with _ | ⟨a, cs⟩
    · subst hdraw
      rw [dealLoop_none _ i j rest rfl]
      exact ih _ (fun p hp => hP p (by simp [hp])) c
    · subst hdraw
      rw [dealLoop_step f a cs dis piles f1 f2 f3 f4 i j rest]
      have hj : j < piles.length := hP (i, j) (by simp)
      rw [ih _ (fun p hp => by
        simpa only [List.length_set] using hP p (by simp [hp])) c]
      have hq1 : piles[j]? = some (piles.getD j []) := by
        rw [List.getD_eq_getElem?_getD, List.getElem?_eq_getElem hj]
        rfl
      have hsum := count_sum_set c piles j (piles.getD j [])
        ((piles.getD j []) ++ [a]) hq1
      refine occ_congr_piles ?_ rfl rfl rfl rfl
      dsimp only
      rw [List.count_append, List.count_singleton] at hsum
      simp only [List.count_cons]
      omega

theorem occ_newGame (rand : Nat → Nat) (s : GameState) (c : Card) :
    occ (newGame rand s) c = fullDeck.count c := by
  rw [newGame_eq rand s]
  have hcond : ∀ p ∈ dealPairs, p.2 < 7 := by decide
  rw [occ_dealLoop dealPairs
      { faceUp := s.faceUp, drawPile := shuffleArray rand fullDeck,
        discardPile := [],
        tableauPiles := [[], [], [], [], [], [], []],
        foundationSpade := 0, foundationClub := 0,
        foundationHeart := 0, foundationDiamond := 0 }
      (fun p hp => hcond p hp) c]
  have hfc : foundationCount
      { faceUp := s.faceUp, drawPile := shuffleArray rand fullDeck,
        discardPile := [],
        tableauPiles := [[], [], [], [], [], [], []],
        foundationSpade := 0, foundationClub := 0,
        foundationHeart := 0, foundationDiamond := 0 } c = 0 := by
    rcases c with ⟨sc, vc⟩
    cases sc <;> simp [foundationCount, foundationValue] <;> omega
  unfold occ
  rw [hfc]
  simp only [List.count_nil, List.map_cons, List.map_nil, List.sum_cons,
    List.sum_nil]
  have := (shuffleArray_perm rand fullDeck).count_eq c
  omega

theorem occ_step {s t : GameState} (hst : Step s t)
    (hinv : ∀ x, occ s x = fullDeck.count x) : ∀ x, occ t x = fullDeck.count x := by
  intro x
  cases hst with
  | drawCard => rw [occ_drawCard s x]; exact hinv x
  | shuffleDiscardPile => rw [occ_shuffleDiscardPile s x]; exact hinv x
  | playDiscardPileCardToFoundation =>
      rw [occ_playDiscardPileCardToFoundation s hinv x]; exact hinv x
  | playDiscardPileCardToTableau idx =>
      rw [occ_playDiscardPileCardToTableau s idx x]; exact hinv x
  | flipTopTableauCard idx =>
      rw [occ_flipTopTableauCard s idx x]; exact hinv x
  | moveTableauCardsToAnotherTableau a b d =>
      rw [occ_moveTableauCardsToAnotherTableau s a b d x]; exact hinv x
  | moveTableauCardToFoundation idx =>
      rw [occ_moveTableauCardToFoundation s idx hinv x]; exact hinv x

theorem occ_invariant {s : GameState} (h : Reachable s) :
    ∀ c, occ s c = fullDeck.count c := by
  induction h with
  | base rand rand0 => exact occ_newGame rand (initialState rand0)
  | step hr hstep ih => exact occ_step hstep ih

end Solitaire

namespace Solitaire

/-! ## The claims -/

theorem tableau_rule (c : Card) (pile : List Card) :
    isValidMoveToAddCardToTableau c pile = true ↔
      ((pile = [] ∧ c.value = 13) ∨
       (∃ top, pile.getLast? = some top ∧ top.value ≠ 1 ∧
          suitColor top.suit ≠ suitColor c.suit ∧ top.value = c.value + 1)) := by
  unfold isValidMoveToAddCardToTableau
  by_cases hp : pile.length = 0
  · have hnil : pile = [] := List.length_eq_zero.mp hp
    subst hnil
    simp
  · rw [if_neg hp]
    have hne : pile ≠ [] := fun h => hp (by simp [h])
    rcases hL : pile.getLast? with _ | top
    · exact absurd (List.getLast?_eq_none_iff.mp hL) hne
    · dsimp only
      constructor
      · intro h
        split_ifs at h with h1 h2 h3
        simp only [beq_iff_eq] at h1 h2
        simp only [Bool.not_eq_true', beq_eq_false_iff_ne, ne_eq] at h3
        refine Or.inr ⟨top, rfl, h1, h2, ?_⟩
        simpa using h3
      · rintro (⟨hnil, -⟩ | ⟨top2, hL2, ht1, ht2, ht3⟩)
        · exact absurd hnil hne
        · obtain rfl : top = top2 := Option.some_inj.mp hL2
          have c1 : (top.value == 1) = false := by
            simp only [beq_eq_false_iff_ne, ne_eq]
            exact ht1
          have c2 : (suitColor top.suit == suitColor c.suit) = false := by
            simp only [beq_eq_false_iff_ne, ne_eq]
            exact ht2
          have c3 : (!(top.value == c.value + 1)) = false := by
            simp [ht3]
          rw [c1, c2, c3]
          rfl

/-- C3: tableau placement legality.  The first conjunct characterises the
legality predicate `#isValidMoveToAddCardToTableau`, which both
`playDiscardPileCardToTableau` and `moveTableauCardsToAnotherTableau` use:
accepted iff the pile is empty and the card is a King (rank 13), or the
pile's last card is not an Ace (rank 1), has the opposite color, and has
rank exactly one greater than the placed card.  The remaining conjuncts
show that, once the other guards of the two placing methods are met (a
card is available and the indices are valid, and for the tableau move the
moved card is face-up), the methods accept exactly when this predicate
accepts. -/
theorem claim_C3 :
    (∀ (c : Card) (pile : List Card),
      isValidMoveToAddCardToTableau c pile = true ↔
        ((pile = [] ∧ c.value = 13) ∨
         (∃ top, pile.getLast? = some top ∧ top.value ≠ 1 ∧
            suitColor top.suit ≠ suitColor c.suit ∧ top.value = c.value + 1))) ∧
    (∀ (s : GameState) (idx : Nat) (c : Card) (pile : List Card),
      s.discardPile.getLast? = some c → s.tableauPiles[idx]? = some pile →
      ((playDiscardPileCardToTableau s idx).1 = true ↔
        isValidMoveToAddCardToTableau c pile = true)) ∧
    (∀ (s : GameState) (src ci dst : Nat) (ip tp : List Card) (c : Card),
      s.tableauPiles[src]? = some ip → s.tableauPiles[dst]? = some tp →
      ip[ci]? = some c → s.faceUp c = true →
      ((moveTableauCardsToAnotherTableau s src ci dst).1 = true ↔
        isValidMoveToAddCardToTableau c tp = true)) := by
  refine ⟨tableau_rule, ?_, ?_⟩
  · intro s idx c pile h hidx
    rcases hv : isValidMoveToAddCardToTableau c pile with _ | _
    · rw [playDiscardPileCardToTableau_eq_invalid s idx c pile h hidx hv]
    · rw [playDiscardPileCardToTableau_eq_valid s idx c pile h hidx hv]
  · intro s src ci dst ip tp c hs ht hc hf
    rcases hv : isValidMoveToAddCardToTableau c tp with _ | _
    · rw [moveTableauCardsToAnotherTableau_eq_invalid s src ci dst ip tp c hs ht hc hf hv]
    · rw [moveTableauCardsToAnotherTableau_eq_valid s src ci dst ip tp c hs ht hc hf hv]

/-- C4: foundation legality.  The legality predicate
`#isValidMoveToAddCardToFoundation` accepts a card iff its rank equals its
suit's foundation value plus one; in particular an Ace (rank 1) is
accepted on an empty foundation (value 0), a rank-2 card is rejected
there, and after the Ace only rank 2 of that suit is accepted.  Both
`playDiscardPileCardToFoundation` and `moveTableauCardToFoundation`
succeed only when the played card satisfies this predicate. -/
theorem claim_C4 :
    (∀ (s : GameState) (c : Card),
      isValidMoveToAddCardToFoundation s c = true ↔
        c.value = foundationValue s c.suit + 1) ∧
    (∀ (s : GameState) (c : Card), foundationValue s c.suit = 0 →
      (isValidMoveToAddCardToFoundation s c = true ↔ c.value = 1)) ∧
    (∀ (s : GameState) (c : Card), foundationValue s c.suit = 0 → c.value = 2 →
      isValidMoveToAddCardToFoundation s c = false) ∧
    (∀ (s : GameState) (c : Card), foundationValue s c.suit = 1 →
      (isValidMoveToAddCardToFoundation s c = true ↔ c.value = 2)) ∧
    (∀ s : GameState, (playDiscardPileCardToFoundation s).1 = true →
      ∃ c, s.discardPile.getLast? = some c ∧
        c.value = foundationValue s c.suit + 1) ∧
    (∀ (s : GameState) (i : Nat), (moveTableauCardToFoundation s i).1 = true →
      ∃ pile c, s.tableauPiles[i]? = some pile ∧ pile.getLast? = some c ∧
        c.value = foundationValue s c.suit + 1) := by
  have hchar : ∀ (s : GameState) (c : Card),
      isValidMoveToAddCardToFoundation s c = true ↔
        c.value = foundationValue s c.suit + 1 := by
    intro s c
    simp [isValidMoveToAddCardToFoundation]
  refine ⟨hchar, ?_, ?_, ?_, ?_, ?_⟩
  · intro s c h0
    rw [hchar, h0]
  · intro s c h0 h2
    rcases hv : isValidMoveToAddCardToFoundation s c with _ | _
    · rfl
    · rw [hchar, h0] at hv
      omega
  · intro s c h1
    rw [hchar, h1]
  · intro s
    rcases hL : s.discardPile.getLast? with _ | a
    · rw [playDiscardPileCardToFoundation_eq_none s hL]
      intro h
      exact absurd h (by simp)
    · rcases hv : isValidMoveToAddCardToFoundation s a with _ | _
      · rw [playDiscardPileCardToFoundation_eq_invalid s a hL hv]
        intro h
        exact absurd h (by simp)
      · intro _
        exact ⟨a, rfl, isValid_foundation_value hv⟩
  · intro s i
    rcases hidx : s.tableauPiles[i]? with _ | pile
    · rw [moveTableauCardToFoundation_eq_badIdx s i hidx]
      intro h
      exact absurd h (by simp)
    · rcases hp : pile.getLast? with _ | a
      · rw [moveTableauCardToFoundation_eq_empty s i pile hidx hp]
        intro h
        exact absurd h (by simp)
      · rcases hv : isValidMoveToAddCardToFoundation s a with _ | _
        · rw [moveTableauCardToFoundation_eq_invalid s i pile a hidx hp hv]
          intro h
          exact absurd h (by simp)
        · intro _
          exact ⟨pile, a, rfl, hp, isValid_foundation_value hv⟩

/-- C5: failure atomicity.  Every action method is a total function on
the game state (immediate from the embedding: each is a total Lean
function returning a `Bool × GameState`), and whenever it returns `false`
the returned state is exactly the input state — draw pile, discard pile,
tableau piles, foundation values and the `faceUp` flag of every card
included (state equality covers all fields). -/
theorem claim_C5 (s : GameState) :
    ((drawCard s).1 = false → (drawCard s).2 = s) ∧
    ((shuffleDiscardPile s).1 = false → (shuffleDiscardPile s).2 = s) ∧
    ((playDiscardPileCardToFoundation s).1 = false →
      (playDiscardPileCardToFoundation s).2 = s) ∧
    (∀ idx, (playDiscardPileCardToTableau s idx).1 = false →
      (playDiscardPileCardToTableau s idx).2 = s) ∧
    (∀ idx, (flipTopTableauCard s idx).1 = false →
      (flipTopTableauCard s idx).2 = s) ∧
    (∀ src ci dst, (moveTableauCardsToAnotherTableau s src ci dst).1 = false →
      (moveTableauCardsToAnotherTableau s src ci dst).2 = s) ∧
    (∀ idx, (moveTableauCardToFoundation s idx).1 = false →
      (moveTableauCardToFoundation s idx).2 = s) := by
  refine ⟨?_, ?_, ?_, ?_, ?_, ?_, ?_⟩
  · rcases hd : s.drawPile with _ | ⟨a, rest⟩
    · rw [drawCard_eq_nil s hd]
      intro _
      rfl
    · rw [drawCard_eq_cons s a rest hd]
      intro h
      exact absurd h (by simp)
  · by_cases hd : s.drawPile = []
    · rw [shuffleDiscardPile_eq_empty s hd]
      intro h
      exact absurd h (by simp)
    · rw [shuffleDiscardPile_eq_nonempty s hd]
      intro _
      rfl
  · rcases hL : s.discardPile.getLast? with _ | a
    · rw [playDiscardPileCardToFoundation_eq_none s hL]
      intro _
      rfl
    · rcases hv : isValidMoveToAddCardToFoundation s a with _ | _
      · rw [playDiscardPileCardToFoundation_eq_invalid s a hL hv]
        intro _
        rfl
      · rw [playDiscardPileCardToFoundation_eq_valid s a hL hv]
        intro h
        exact absurd h (by simp)
  · intro idx
    rcases hL : s.discardPile.getLast? with _ | a
    · rw [playDiscardPileCardToTableau_eq_none s idx hL]
      intro _
      rfl
    · rcases hidx : s.tableauPiles[idx]? with _ | pile
      · rw [playDiscardPileCardToTableau_eq_badIdx s idx a hL hidx]
        intro _
        rfl
      · rcases hv : isValidMoveToAddCardToTableau a pile with _ | _
        · rw [playDiscardPileCardToTableau_eq_invalid s idx a pile hL hidx hv]
          intro _
          rfl
        · rw [playDiscardPileCardToTableau_eq_valid s idx a pile hL hidx hv]
          intro h
          exact absurd h (by simp)
  · intro idx
    rcases hidx : s.tableauPiles[idx]? with _ | pile
    · rw [flipTopTableauCard_eq_badIdx s idx hidx]
      intro _
      rfl
    · rcases hp : pile.getLast? with _ | a
      · rw [flipTopTableauCard_eq_empty s idx pile hidx hp]
        intro _
        rfl
      · rcases hf : s.faceUp a with _ | _
        · rw [flipTopTableauCard_eq_faceDown s idx pile a hidx hp hf]
          intro h
          exact absurd h (by simp)
        · rw [flipTopTableauCard_eq_faceUp s idx pile a hidx hp hf]
          intro _
          rfl
  · intro src ci dst
    rcases hs : s.tableauPiles[src]? with _ | ip
    · rw [moveTableauCardsToAnotherTableau_eq_badIdx s src ci dst (Or.inl hs)]
      intro _
      rfl
    · rcases ht : s.tableauPiles[dst]? with _ | tp
      · rw [moveTableauCardsToAnotherTableau_eq_badIdx s src ci dst (Or.inr ht)]
        intro _
        rfl
      · rcases hc : ip[ci]? with _ | a
        · rw [moveTableauCardsToAnotherTableau_eq_noCard s src ci dst ip tp hs ht hc]
          intro _
          rfl
        · rcases hf : s.faceUp a with _ | _
          · rw [moveTableauCardsToAnotherTableau_eq_faceDown s src ci dst ip tp a hs ht hc hf]
            intro _
            rfl
          · rcases hv : isValidMoveToAddCardToTableau a tp with _ | _
            · rw [moveTableauCardsToAnotherTableau_eq_invalid s src ci dst ip tp a hs ht hc hf hv]
              intro _
              rfl
            · rw [moveTableauCardsToAnotherTableau_eq_valid s src ci dst ip tp a hs ht hc hf hv]
              intro h
              exact absurd h (by simp)
  · intro idx
    rcases hidx : s.tableauPiles[idx]? with _ | pile
    · rw [moveTableauCardToFoundation_eq_badIdx s idx hidx]
      intro _
      rfl
    · rcases hp : pile.getLast? with _ | a
      · rw [moveTableauCardToFoundation_eq_empty s idx pile hidx hp]
        intro _
        rfl
      · rcases hv : isValidMoveToAddCardToFoundation s a with _ | _
        · rw [moveTableauCardToFoundation_eq_invalid s idx pile a hidx hp hv]
          intro _
          rfl
        · rw [moveTableauCardToFoundation_eq_valid s idx pile a hidx hp hv]
          intro h
          exact absurd h (by simp)

end Solitaire

namespace Solitaire

/-- C2: card-set conservation.  In every state reachable from `newGame()`
by any sequence of the seven action methods, each of the 52 (suit, rank)
pairs occurs exactly once across the draw pile, the discard pile, the
seven tableau piles, and the cards implied consumed by the foundation
values (`occ` counts all four locations, crediting a foundation at value
`v` with ranks `1..v` of its suit). -/
theorem claim_C2 (s : GameState) (h : Reachable s) (c : Card)
    (h1 : 1 ≤ c.value) (h2 : c.value ≤ 13) : occ s c = 1 := by
  rw [occ_invariant h c]
  rcases c with ⟨su, v⟩
  rw [count_fullDeck]
  simp only at h1 h2
  rw [if_pos ⟨h1, h2⟩]

theorem claim_C2_witness :
    occ (drawCard (newGameState (fun _ => 0) (fun _ => 1))).2
      ⟨Suit.heart, 7⟩ = 1 :=
  claim_C2 _
    (Reachable.step (Reachable.base (fun _ => 0) (fun _ => 1))
      (Step.drawCard _))
    ⟨Suit.heart, 7⟩ (by decide) (by decide)

/-- C10 (implicit): `moveTableauCardToFoundation` never checks the
`faceUp` flag — whenever tableau pile `i` has a (real, rank ≤ 13) top
card that is face-down but one above its suit's foundation value, the
move succeeds, increments that foundation, and pops the card, which is
still face-down afterwards (unlike `moveTableauCardsToAnotherTableau`,
which rejects face-down cards — claim C8). -/
theorem claim_C10 (s : GameState) (i : Nat) (pile : List Card) (c : Card)
    (hidx : s.tableauPiles[i]? = some pile) (hp : pile.getLast? = some c)
    (hface : s.faceUp c = false)
    (hval : c.value = foundationValue s c.suit + 1) (hle : c.value ≤ 13) :
    (moveTableauCardToFoundation s i).1 = true ∧
    foundationValue (moveTableauCardToFoundation s i).2 c.suit
      = foundationValue s c.suit + 1 ∧
    (moveTableauCardToFoundation s i).2.tableauPiles
      = s.tableauPiles.set i pile.dropLast ∧
    (moveTableauCardToFoundation s i).2.faceUp c = false := by
  have hv : isValidMoveToAddCardToFoundation s c = true := by
    simp [isValidMoveToAddCardToFoundation, hval]
  rw [moveTableauCardToFoundation_eq_valid s i pile c hidx hp hv]
  obtain ⟨f1, f2, f3, f4⟩ := addCardToFoundation_fields s c
  refine ⟨rfl, ?_, rfl, ?_⟩
  · have hfv : foundationValue
        { addCardToFoundation s c with
          tableauPiles := s.tableauPiles.set i pile.dropLast } c.suit
        = foundationValue (addCardToFoundation s c) c.suit := by
      rcases c with ⟨sc, vc⟩
      cases sc <;> rfl
    rw [hfv, foundationValue_addCard s c (by omega) c.suit, if_pos rfl]
  · show (addCardToFoundation s c).faceUp c = false
    rw [f1]
    exact hface

theorem claim_C10_witness :
    (moveTableauCardToFoundation
      { faceUp := fun _ => false, drawPile := [], discardPile := [],
        tableauPiles := [[{ suit := Suit.spade, value := 1 }]],
        foundationSpade := 0, foundationClub := 0,
        foundationHeart := 0, foundationDiamond := 0 } 0).1 = true ∧
    foundationValue (moveTableauCardToFoundation
      { faceUp := fun _ => false, drawPile := [], discardPile := [],
        tableauPiles := [[{ suit := Suit.spade, value := 1 }]],
        foundationSpade := 0, foundationClub := 0,
        foundationHeart := 0, foundationDiamond := 0 } 0).2 Suit.spade = 0 + 1 ∧
    (moveTableauCardToFoundation
      { faceUp := fun _ => false, drawPile := [], discardPile := [],
        tableauPiles := [[{ suit := Suit.spade, value := 1 }]],
        foundationSpade := 0, foundationClub := 0,
        foundationHeart := 0, foundationDiamond := 0 } 0).2.tableauPiles
      = [[{ suit := Suit.spade, value := 1 }]].set 0
          ([{ suit := Suit.spade, value := 1 }] : List Card).dropLast ∧
    (moveTableauCardToFoundation
      { faceUp := fun _ => false, drawPile := [], discardPile := [],
        tableauPiles := [[{ suit := Suit.spade, value := 1 }]],
        foundationSpade := 0, foundationClub := 0,
        foundationHeart := 0, foundationDiamond := 0 } 0).2.faceUp
      { suit := Suit.spade, value := 1 } = false :=
  claim_C10 _ 0 [{ suit := Suit.spade, value := 1 }]
    { suit := Suit.spade, value := 1 } rfl rfl rfl (by decide) (by decide)

end Solitaire

namespace Solitaire

theorem set_self_of_getElem? :
    ∀ {α : Type} (l : List α) (n : Nat) (a : α), l[n]? = some a → l.set n a = l := by
  intro α l
  induction l with
  | nil => intro n a h; simp at h
  | cons x t ih =>
    intro n a h
    cases n with
    | zero =>
      simp only [List.getElem?_cons_zero, Option.some.injEq] at h
      subst h
      rfl
    | succ k =>
      simp only [List.getElem?_cons_succ] at h
      simp only [List.set_cons_succ, ih k a h]

/-- C8: moving a tableau run.  (a) If the card at `cardIndex` of the
source pile is face-down the move fails, regardless of destination.
(b) The move succeeds iff both indices are valid, a card exists at
`cardIndex`, that card is face-up, and that single card attaches legally
to the destination top (`#isValidMoveToAddCardToTableau` — nothing else
about the run is validated).  (c) On success with distinct piles, exactly
the contiguous suffix of the source from `cardIndex` is removed and
appended, in order, to the destination; every other pile and every other
state component is unchanged.  (d) On success with `initial = target`
(the aliased-array case) the spliced run is pushed back where it was, so
the state is unchanged. -/
theorem claim_C8 (s : GameState) (src ci dst : Nat) :
    (∀ ip c, s.tableauPiles[src]? = some ip → ip[ci]? = some c →
      s.faceUp c = false →
      (moveTableauCardsToAnotherTableau s src ci dst).1 = false) ∧
    ((moveTableauCardsToAnotherTableau s src ci dst).1 = true ↔
      ∃ ip tp c, s.tableauPiles[src]? = some ip ∧
        s.tableauPiles[dst]? = some tp ∧ ip[ci]? = some c ∧
        s.faceUp c = true ∧ isValidMoveToAddCardToTableau c tp = true) ∧
    (∀ ip tp, s.tableauPiles[src]? = some ip → s.tableauPiles[dst]? = some tp →
      (moveTableauCardsToAnotherTableau s src ci dst).1 = true → src ≠ dst →
      (moveTableauCardsToAnotherTableau s src ci dst).2.tableauPiles[src]?
          = some (ip.take ci) ∧
      (moveTableauCardsToAnotherTableau s src ci dst).2.tableauPiles[dst]?
          = some (tp ++ ip.drop ci) ∧
      (∀ k, k ≠ src → k ≠ dst →
        (moveTableauCardsToAnotherTableau s src ci dst).2.tableauPiles[k]?
          = s.tableauPiles[k]?) ∧
      (moveTableauCardsToAnotherTableau s src ci dst).2.drawPile = s.drawPile ∧
      (moveTableauCardsToAnotherTableau s src ci dst).2.discardPile
          = s.discardPile ∧
      (moveTableauCardsToAnotherTableau s src ci dst).2.faceUp = s.faceUp) ∧
    ((moveTableauCardsToAnotherTableau s src ci dst).1 = true → src = dst →
      (moveTableauCardsToAnotherTableau s src ci dst).2 = s) := by
  refine ⟨?_, ?_, ?_, ?_⟩
  · intro ip c hs hc hface
    rcases ht : s.tableauPiles[dst]? with _ | tp
    · rw [moveTableauCardsToAnotherTableau_eq_badIdx s src ci dst (Or.inr ht)]
    · rw [moveTableauCardsToAnotherTableau_eq_faceDown s src ci dst ip tp c hs ht hc hface]
  · constructor
    · intro h
      rcases hs : s.tableauPiles[src]? with _ | ip
      · rw [moveTableauCardsToAnotherTableau_eq_badIdx s src ci dst (Or.inl hs)] at h
        exact absurd h (by simp)
      · rcases ht : s.tableauPiles[dst]? with _ | tp
        · rw [moveTableauCardsToAnotherTableau_eq_badIdx s src ci dst (Or.inr ht)] at h
          exact absurd h (by simp)
        · rcases hc : ip[ci]? with _ | c
          · rw [moveTableauCardsToAnotherTableau_eq_noCard s src ci dst ip tp hs ht hc] at h
            exact absurd h (by simp)
          · rcases hf : s.faceUp c with _ | _
            · rw [moveTableauCardsToAnotherTableau_eq_faceDown s src ci dst ip tp c hs ht hc hf] at h
              exact absurd h (by simp)
            · rcases hv : isValidMoveToAddCardToTableau c tp with _ | _
              · rw [moveTableauCardsToAnotherTableau_eq_invalid s src ci dst ip tp c hs ht hc hf hv] at h
                exact absurd h (by simp)
              · exact ⟨ip, tp, c, rfl, rfl, hc, hf, hv⟩
    · rintro ⟨ip, tp, c, hs, ht, hc, hf, hv⟩
      rw [moveTableauCardsToAnotherTableau_eq_valid s src ci dst ip tp c hs ht hc hf hv]
  · intro ip tp hs ht hA hne
    obtain ⟨hsrcLt, -⟩ := List.getElem?_eq_some_iff.mp hs
    rcases hc : ip[ci]? with _ | c
    · rw [moveTableauCardsToAnotherTableau_eq_noCard s src ci dst ip tp hs ht hc] at hA
      exact absurd hA (by simp)
    · rcases hf : s.faceUp c with _ | _
      · rw [moveTableauCardsToAnotherTableau_eq_faceDown s src ci dst ip tp c hs ht hc hf] at hA
        exact absurd hA (by simp)
      · rcases hv : isValidMoveToAddCardToTableau c tp with _ | _
        · rw [moveTableauCardsToAnotherTableau_eq_invalid s src ci dst ip tp c hs ht hc hf hv] at hA
          exact absurd hA (by simp)
        · rw [moveTableauCardsToAnotherTableau_eq_valid s src ci dst ip tp c hs ht hc hf hv]
          have hgd : (s.tableauPiles.set src (ip.take ci)).getD dst [] = tp := by
            rw [List.getD_eq_getElem?_getD, List.getElem?_set_ne hne, ht]
            rfl
          dsimp only
          rw [hgd]
          refine ⟨?_, ?_, ?_, rfl, rfl, rfl⟩
          · rw [List.getElem?_set_ne (fun h => hne h.symm),
              List.getElem?_set_self hsrcLt]
          · rw [List.getElem?_set_self]
            rw [List.length_set]
            exact (List.getElem?_eq_some_iff.mp ht).1
          · intro k hk1 hk2
            rw [List.getElem?_set_ne (fun h => hk2 h.symm),
              List.getElem?_set_ne (fun h => hk1 h.symm)]
  · intro hA heq
    cases heq
    rcases hs : s.tableauPiles[src]? with _ | ip
    · rw [moveTableauCardsToAnotherTableau_eq_badIdx s src ci src (Or.inl hs)] at hA
      exact absurd hA (by simp)
    · rcases hc : ip[ci]? with _ | c
      · rw [moveTableauCardsToAnotherTableau_eq_noCard s src ci src ip ip hs hs hc] at hA
        exact absurd hA (by simp)
      · rcases hf : s.faceUp c with _ | _
        · rw [moveTableauCardsToAnotherTableau_eq_faceDown s src ci src ip ip c hs hs hc hf] at hA
          exact absurd hA (by simp)
        · rcases hv : isValidMoveToAddCardToTableau c ip with _ | _
          · rw [moveTableauCardsToAnotherTableau_eq_invalid s src ci src ip ip c hs hs hc hf hv] at hA
            exact absurd hA (by simp)
          · rw [moveTableauCardsToAnotherTableau_eq_valid s src ci src ip ip c hs hs hc hf hv]
            obtain ⟨hsrcLt, -⟩ := List.getElem?_eq_some_iff.mp hs
            have hgd : (s.tableauPiles.set src (ip.take ci)).getD src []
                = ip.take ci := by
              rw [List.getD_eq_getElem?_getD, List.getElem?_set_self hsrcLt]
              rfl
            refine gameStateExt rfl rfl rfl ?_ rfl rfl rfl rfl
            dsimp only
            rw [hgd, List.set_set, List.take_append_drop,
              set_self_of_getElem? s.tableauPiles src ip hs]

end Solitaire

namespace Solitaire

set_option maxHeartbeats 1000000 in
/-- C1: the fresh deal.  For every freshly constructed game (all 52 cards
created face-down) immediately after `newGame()` — whatever the shuffle
outcomes `rand`, `rand0` — tableau pile `p` (for `p = 0..6`) holds
exactly `p + 1` cards, only its last (top) card is face-up and every card
below it is face-down, the seven piles hold 28 cards in total, 24 cards
remain in the draw pile, the discard pile is empty, and all four
foundation piles have value 0. -/
theorem claim_C1 (rand rand0 : Nat → Nat) (p : Nat) (hp : p < 7) :
    ∃ pile, (newGameState rand rand0).tableauPiles[p]? = some pile ∧
      pile.length = p + 1 ∧
      (∃ top, pile.getLast? = some top ∧
        (newGameState rand rand0).faceUp top = true) ∧
      (∀ c ∈ pile.dropLast, (newGameState rand rand0).faceUp c = false) ∧
      ((newGameState rand rand0).tableauPiles.map List.length).sum = 28 ∧
      (newGameState rand rand0).drawPile.length = 24 ∧
      (newGameState rand rand0).discardPile = [] ∧
      (∀ su, foundationValue (newGameState rand rand0) su = 0) := by
  have hlen := shuffleArray_fullDeck_length rand
  have hnodup := shuffleArray_fullDeck_nodup rand
  have hchar := newGame_char rand (initialState rand0)
  have hT : (newGameState rand rand0).tableauPiles
      = dealtTableau (shuffleArray rand fullDeck) := by
    unfold newGameState
    rw [hchar]
  have hF : ∀ x, (newGameState rand rand0).faceUp x
      = (if x ∈ dealFlips (shuffleArray rand fullDeck) then true else false) := by
    intro x
    unfold newGameState
    rw [hchar]
    dsimp only
    have h0 : (initialState rand0).faceUp x = false := rfl
    rw [h0]
    rfl
  have hD : (newGameState rand rand0).drawPile
      = (shuffleArray rand fullDeck).drop 28 := by
    unfold newGameState
    rw [hchar]
  have hDis : (newGameState rand rand0).discardPile = [] := by
    unfold newGameState
    rw [hchar]
  have hFnd : ∀ su, foundationValue (newGameState rand rand0) su = 0 := by
    intro su
    unfold newGameState
    rw [hchar]
    cases su <;> rfl
  have hflipsAt : ∀ k ∈ ([0, 7, 13, 18, 22, 25, 27] : List Nat),
      (newGameState rand rand0).faceUp (nth (shuffleArray rand fullDeck) k)
        = true := by
    intro k hk
    have hm : nth (shuffleArray rand fullDeck) k
        ∈ dealFlips (shuffleArray rand fullDeck) := by
      fin_cases hk <;> simp [dealFlips]
    rw [hF, if_pos hm]
  have hdownAt : ∀ k, k < 52 → k ∉ ([0, 7, 13, 18, 22, 25, 27] : List Nat) →
      (newGameState rand rand0).faceUp (nth (shuffleArray rand fullDeck) k)
        = false := by
    intro k hk hkn
    have hb : ∀ j, j < 52 →
        (nth (shuffleArray rand fullDeck) k = nth (shuffleArray rand fullDeck) j
          ↔ k = j) := fun j hj =>
      nth_inj hnodup (by rw [hlen]; exact hk) (by rw [hlen]; exact hj)
    rw [hF, if_neg ?hnm]
    case hnm =>
      intro hmem
      simp only [List.mem_cons, List.not_mem_nil, or_false, not_or] at hkn
      obtain ⟨n0, n7, n13, n18, n22, n25, n27⟩ := hkn
      simp only [dealFlips, List.mem_cons, List.not_mem_nil, or_false] at hmem
      rcases hmem with h | h | h | h | h | h | h
      · exact n0 ((hb 0 (by omega)).mp h)
      · exact n7 ((hb 7 (by omega)).mp h)
      · exact n13 ((hb 13 (by omega)).mp h)
      · exact n18 ((hb 18 (by omega)).mp h)
      · exact n22 ((hb 22 (by omega)).mp h)
      · exact n25 ((hb 25 (by omega)).mp h)
      · exact n27 ((hb 27 (by omega)).mp h)
  interval_cases p
  · refine ⟨[nth (shuffleArray rand fullDeck) 0], ?_, ?_, ?_, ?_, ?_, ?_, hDis, hFnd⟩
    · rw [hT]
      exact rfl
    · rfl
    · exact ⟨nth (shuffleArray rand fullDeck) 0, rfl,
        hflipsAt 0 (by decide)⟩
    · intro c hc
      simp at hc
    · rw [hT]
      rfl
    · rw [hD, List.length_drop, hlen]
  · refine ⟨[nth (shuffleArray rand fullDeck) 1, nth (shuffleArray rand fullDeck) 7], ?_, ?_, ?_, ?_, ?_, ?_, hDis, hFnd⟩
    · rw [hT]
      exact rfl
    · rfl
    · exact ⟨nth (shuffleArray rand fullDeck) 7, rfl,
        hflipsAt 7 (by decide)⟩
    · intro c hc
      fin_cases hc
      · exact hdownAt 1 (by decide) (by decide)
    · rw [hT]
      rfl
    · rw [hD, List.length_drop, hlen]
  · refine ⟨[nth (shuffleArray rand fullDeck) 2, nth (shuffleArray rand fullDeck) 8, nth (shuffleArray rand fullDeck) 13], ?_, ?_, ?_, ?_, ?_, ?_, hDis, hFnd⟩
    · rw [hT]
      exact rfl
    · rfl
    · exact ⟨nth (shuffleArray rand fullDeck) 13, rfl,
        hflipsAt 13 (by decide)⟩
    · intro c hc
      fin_cases hc
      · exact hdownAt 2 (by decide) (by decide)
      · exact hdownAt 8 (by decide) (by decide)
    · rw [hT]
      rfl
    · rw [hD, List.length_drop, hlen]
  · refine ⟨[nth (shuffleArray rand fullDeck) 3, nth (shuffleArray rand fullDeck) 9, nth (shuffleArray rand fullDeck) 14, nth (shuffleArray rand fullDeck) 18], ?_, ?_, ?_, ?_, ?_, ?_, hDis, hFnd⟩
    · rw [hT]
      exact rfl
    · rfl
    · exact ⟨nth (shuffleArray rand fullDeck) 18, rfl,
        hflipsAt 18 (by decide)⟩
    · intro c hc
      fin_cases hc
      · exact hdownAt 3 (by decide) (by decide)
      · exact hdownAt 9 (by decide) (by decide)
      · exact hdownAt 14 (by decide) (by decide)
    · rw [hT]
      rfl
    · rw [hD, List.length_drop, hlen]
  · refine ⟨[nth (shuffleArray rand fullDeck) 4, nth (shuffleArray rand fullDeck) 10, nth (shuffleArray rand fullDeck) 15, nth (shuffleArray rand fullDeck) 19, nth (shuffleArray rand fullDeck) 22], ?_, ?_, ?_, ?_, ?_, ?_, hDis, hFnd⟩
    · rw [hT]
      exact rfl
    · rfl
    · exact ⟨nth (shuffleArray rand fullDeck) 22, rfl,
        hflipsAt 22 (by decide)⟩
    · intro c hc
      fin_cases hc
      · exact hdownAt 4 (by decide) (by decide)
      · exact hdownAt 10 (by decide) (by decide)
      · exact hdownAt 15 (by decide) (by decide)
      · exact hdownAt 19 (by decide) (by decide)
    · rw [hT]
      rfl
    · rw [hD, List.length_drop, hlen]
  · refine ⟨[nth (shuffleArray rand fullDeck) 5, nth (shuffleArray rand fullDeck) 11, nth (shuffleArray rand fullDeck) 16, nth (shuffleArray rand fullDeck) 20, nth (shuffleArray rand fullDeck) 23, nth (shuffleArray rand fullDeck) 25], ?_, ?_, ?_, ?_, ?_, ?_, hDis, hFnd⟩
    · rw [hT]
      exact rfl
    · rfl
    · exact ⟨nth (shuffleArray rand fullDeck) 25, rfl,
        hflipsAt 25 (by decide)⟩
    · intro c hc
      fin_cases hc
      · exact hdownAt 5 (by decide) (by decide)
      · exact hdownAt 11 (by decide) (by decide)
      · exact hdownAt 16 (by decide) (by decide)
      · exact hdownAt 20 (by decide) (by decide)
      · exact hdownAt 23 (by decide) (by decide)
    · rw [hT]
      rfl
    · rw [hD, List.length_drop, hlen]
  · refine ⟨[nth (shuffleArray rand fullDeck) 6, nth (shuffleArray rand fullDeck) 12, nth (shuffleArray rand fullDeck) 17, nth (shuffleArray rand fullDeck) 21, nth (shuffleArray rand fullDeck) 24, nth (shuffleArray rand fullDeck) 26, nth (shuffleArray rand fullDeck) 27], ?_, ?_, ?_, ?_, ?_, ?_, hDis, hFnd⟩
    · rw [hT]
      exact rfl
    · rfl
    · exact ⟨nth (shuffleArray rand fullDeck) 27, rfl,
        hflipsAt 27 (by decide)⟩
    · intro c hc
      fin_cases hc
      · exact hdownAt 6 (by decide) (by decide)
      · exact hdownAt 12 (by decide) (by decide)
      · exact hdownAt 17 (by decide) (by decide)
      · exact hdownAt 21 (by decide) (by decide)
      · exact hdownAt 24 (by decide) (by decide)
      · exact hdownAt 26 (by decide) (by decide)
    · rw [hT]
      rfl
    · rw [hD, List.length_drop, hlen]

theorem claim_C1_witness :
    ∃ pile, (newGameState (fun _ => 0) (fun _ => 0)).tableauPiles[3]? = some pile ∧
      pile.length = 3 + 1 ∧
      (∃ top, pile.getLast? = some top ∧
        (newGameState (fun _ => 0) (fun _ => 0)).faceUp top = true) ∧
      (∀ c ∈ pile.dropLast,
        (newGameState (fun _ => 0) (fun _ => 0)).faceUp c = false) ∧
      ((newGameState (fun _ => 0) (fun _ => 0)).tableauPiles.map List.length).sum = 28 ∧
      (newGameState (fun _ => 0) (fun _ => 0)).drawPile.length = 24 ∧
      (newGameState (fun _ => 0) (fun _ => 0)).discardPile = [] ∧
      (∀ su, foundationValue (newGameState (fun _ => 0) (fun _ => 0)) su = 0) :=
  claim_C1 (fun _ => 0) (fun _ => 0) 3 (by decide)

end Solitaire

namespace Solitaire

/-- C6 counterexample: the claim says recycling moves every discard card
into the draw pile face-down; but `Deck.shuffleInDiscardPile` TOGGLES
each card's flag (`card.flip()`), so a face-down card in the discard pile
comes back face-up.  Concrete input: draw pile empty, discard pile
holding the single card ♠5 with `faceUp = false`. -/
theorem claim_C6_counterexample :
    (shuffleDiscardPile
      { faceUp := fun _ => false, drawPile := [],
        discardPile := [{ suit := Suit.spade, value := 5 }],
        tableauPiles := [], foundationSpade := 0, foundationClub := 0,
        foundationHeart := 0, foundationDiamond := 0 }).1 = true ∧
    { suit := Suit.spade, value := 5 } ∈ (shuffleDiscardPile
      { faceUp := fun _ => false, drawPile := [],
        discardPile := [{ suit := Suit.spade, value := 5 }],
        tableauPiles := [], foundationSpade := 0, foundationClub := 0,
        foundationHeart := 0, foundationDiamond := 0 }).2.drawPile ∧
    ¬ (∀ c ∈ (shuffleDiscardPile
        { faceUp := fun _ => false, drawPile := [],
          discardPile := [{ suit := Suit.spade, value := 5 }],
          tableauPiles := [], foundationSpade := 0, foundationClub := 0,
          foundationHeart := 0, foundationDiamond := 0 }).2.drawPile,
        (shuffleDiscardPile
          { faceUp := fun _ => false, drawPile := [],
            discardPile := [{ suit := Suit.spade, value := 5 }],
            tableauPiles := [], foundationSpade := 0, foundationClub := 0,
            foundationHeart := 0, foundationDiamond := 0 }).2.faceUp c = false) := by
  refine ⟨rfl, by decide, by decide⟩

/-- C6 (amended): `shuffleDiscardPile()` returns `false` exactly when the
draw pile is non-empty (leaving the state untouched); when the draw pile
is empty it returns `true` and moves every card of the discard pile into
the draw pile preserving their relative order (no re-randomisation),
leaving the discard pile empty, and TOGGLES each moved card's `faceUp`
flag (`card.flip()` per occurrence) — so the cards end face-down exactly
when they were face-up, which is the situation in ordinary play, rather
than unconditionally face-down as the original claim stated. -/
theorem claim_C6 (s : GameState) :
    (s.drawPile ≠ [] → shuffleDiscardPile s = (false, s)) ∧
    (s.drawPile = [] →
      (shuffleDiscardPile s).1 = true ∧
      (shuffleDiscardPile s).2.drawPile = s.discardPile ∧
      (shuffleDiscardPile s).2.discardPile = [] ∧
      (∀ c, (shuffleDiscardPile s).2.faceUp c =
        if List.count c s.discardPile % 2 = 1 then !(s.faceUp c) else s.faceUp c) ∧
      (s.discardPile.Nodup →
        (∀ c ∈ s.discardPile,
          (shuffleDiscardPile s).2.faceUp c = !(s.faceUp c)) ∧
        (∀ c, c ∉ s.discardPile →
          (shuffleDiscardPile s).2.faceUp c = s.faceUp c))) := by
  refine ⟨fun h => shuffleDiscardPile_eq_nonempty s h, fun hd => ?_⟩
  rw [shuffleDiscardPile_eq_empty s hd]
  obtain ⟨e1, e2, e3, e4, e5, e6, e7⟩ := recycleFold_spec s.discardPile s
  refine ⟨rfl, ?_, rfl, ?_, ?_⟩
  · show (recycleFold s s.discardPile).drawPile = s.discardPile
    rw [e1, hd]
    rfl
  · intro c
    show (recycleFold s s.discardPile).faceUp c = _
    exact recycleFold_faceUp s.discardPile s c
  · intro hnd
    constructor
    · intro c hc
      have h1 : List.count c s.discardPile = 1 :=
        List.count_eq_one_of_mem hnd hc
      show (recycleFold s s.discardPile).faceUp c = _
      rw [recycleFold_faceUp s.discardPile s c, h1]
      exact if_pos rfl
    · intro c hc
      have h0 : List.count c s.discardPile = 0 :=
        List.count_eq_zero_of_not_mem hc
      show (recycleFold s s.discardPile).faceUp c = _
      rw [recycleFold_faceUp s.discardPile s c, h0]
      exact if_neg (by omega)

theorem claim_C6_witness :
    (shuffleDiscardPile
      { faceUp := fun _ => true, drawPile := [],
        discardPile := [{ suit := Suit.heart, value := 3 }],
        tableauPiles := [], foundationSpade := 0, foundationClub := 0,
        foundationHeart := 0, foundationDiamond := 0 }).1 = true ∧
    (shuffleDiscardPile
      { faceUp := fun _ => true, drawPile := [],
        discardPile := [{ suit := Suit.heart, value := 3 }],
        tableauPiles := [], foundationSpade := 0, foundationClub := 0,
        foundationHeart := 0, foundationDiamond := 0 }).2.faceUp
      { suit := Suit.heart, value := 3 } = !true ∧
    shuffleDiscardPile
      { faceUp := fun _ => true,
        drawPile := [{ suit := Suit.club, value := 2 }],
        discardPile := [], tableauPiles := [], foundationSpade := 0,
        foundationClub := 0, foundationHeart := 0, foundationDiamond := 0 }
      = (false,
        { faceUp := fun _ => true,
          drawPile := [{ suit := Suit.club, value := 2 }],
          discardPile := [], tableauPiles := [], foundationSpade := 0,
          foundationClub := 0, foundationHeart := 0, foundationDiamond := 0 }) :=
  ⟨((claim_C6 _).2 rfl).1,
   (((claim_C6 _).2 rfl).2.2.2.2 (by decide)).1 _ (by decide),
   (claim_C6 _).1 (by decide)⟩

end Solitaire

namespace Solitaire

set_option maxRecDepth 100000 in
set_option maxHeartbeats 4000000 in
unseal shuffleArray in
/-- C7 counterexample: the claim says that after any `Deck.reset()` every
card in the draw pile is face-down regardless of the prior faceUp state.
But `reset()` only rebuilds the piles from the shared card objects — it
never touches their `faceUp` flags.  Concrete input: a state in which ♠A
is face-up; after `reset` the draw pile contains ♠A and it is still
face-up. -/
theorem claim_C7_counterexample :
    ({ suit := Suit.spade, value := 1 } : Card) ∈ (reset (fun _ => 0)
      { faceUp := fun c => decide (c = { suit := Suit.spade, value := 1 }),
        drawPile := [], discardPile := [], tableauPiles := [],
        foundationSpade := 0, foundationClub := 0, foundationHeart := 0,
        foundationDiamond := 0 }).drawPile ∧
    ¬ (∀ c ∈ (reset (fun _ => 0)
        { faceUp := fun c => decide (c = { suit := Suit.spade, value := 1 }),
          drawPile := [], discardPile := [], tableauPiles := [],
          foundationSpade := 0, foundationClub := 0, foundationHeart := 0,
          foundationDiamond := 0 }).drawPile,
        (reset (fun _ => 0)
          { faceUp := fun c => decide (c = { suit := Suit.spade, value := 1 }),
            drawPile := [], discardPile := [], tableauPiles := [],
            foundationSpade := 0, foundationClub := 0, foundationHeart := 0,
            foundationDiamond := 0 }).faceUp c = false) := by
  refine ⟨by decide, by decide⟩

/-- C7 (amended): after any `Deck.reset()` (including the ones inside
`newGame()`), the draw pile holds exactly 52 cards — one per (suit, rank)
pair — and the discard pile is empty; but `reset` does NOT touch the
cards' `faceUp` flags: every card keeps the flag it had before the reset.
Consequently all 52 cards are face-down only when they were all face-down
already — true at construction time and hence for a freshly constructed
game's first `newGame()`, but not after a second `newGame()` following
arbitrary play that left cards face-up. -/
theorem claim_C7 (rand : Nat → Nat) (s : GameState) :
    ((reset rand s).drawPile.length = 52 ∧
     (∀ c, (reset rand s).drawPile.count c = fullDeck.count c) ∧
     (reset rand s).drawPile.Nodup ∧
     (reset rand s).discardPile = []) ∧
    (reset rand s).faceUp = s.faceUp ∧
    ((∀ c, s.faceUp c = false) →
      ∀ c ∈ (reset rand s).drawPile, (reset rand s).faceUp c = false) := by
  refine ⟨⟨?_, ?_, ?_, rfl⟩, rfl, ?_⟩
  · exact shuffleArray_fullDeck_length rand
  · intro c
    exact (shuffleArray_perm rand fullDeck).count_eq c
  · exact shuffleArray_fullDeck_nodup rand
  · intro hall c _
    exact hall c

set_option maxRecDepth 100000 in
set_option maxHeartbeats 4000000 in
unseal shuffleArray in
theorem claim_C7_witness :
    (reset (fun _ => 0) (initialState (fun _ => 1))).drawPile.length = 52 ∧
    (reset (fun _ => 0) (initialState (fun _ => 1))).faceUp
      { suit := Suit.spade, value := 1 } = false :=
  ⟨(claim_C7 (fun _ => 0) (initialState (fun _ => 1))).1.1,
   (claim_C7 (fun _ => 0) (initialState (fun _ => 1))).2.2 (fun _ => rfl)
     { suit := Suit.spade, value := 1 } (by decide)⟩

end Solitaire

namespace Solitaire

set_option maxRecDepth 1000000 in
set_option maxHeartbeats 16000000 in
unseal shuffleArray in
/-- C9 counterexample: the deal description in the spec says pile `p`
receives `7 − p` cards, which would give pile 0 seven cards.  In the code
pile `p` is dealt one card in every round `i ≤ p`, so pile 0 receives a
single card: at the concrete input `p = 0` (any shuffle outcome — here
the constant-0 random source) the claimed count `7 − 0 = 7` is wrong. -/
theorem claim_C9_counterexample :
    ¬ ((((newGameState (fun _ => 0) (fun _ => 0)).tableauPiles[0]?).getD []).length
        = 7 - 0) := by decide

/-- C9 (amended): during `newGame()`'s triangular deal, tableau pile `p`
(for `p = 0..6`) receives exactly `p + 1` cards — pile 0 gets one card and
pile 6 gets seven — not `7 − p` as the claim stated. -/
theorem claim_C9 (rand rand0 : Nat → Nat) (p : Nat) (hp : p < 7) :
    ∃ pile, (newGameState rand rand0).tableauPiles[p]? = some pile ∧
      pile.length = p + 1 := by
  have hchar := newGame_char rand (initialState rand0)
  have hT : (newGameState rand rand0).tableauPiles
      = dealtTableau (shuffleArray rand fullDeck) := by
    unfold newGameState
    rw [hchar]
  interval_cases p
  · exact ⟨[nth (shuffleArray rand fullDeck) 0], by rw [hT]; exact rfl, rfl⟩
  · exact ⟨[nth (shuffleArray rand fullDeck) 1, nth (shuffleArray rand fullDeck) 7], by rw [hT]; exact rfl, rfl⟩
  · exact ⟨[nth (shuffleArray rand fullDeck) 2, nth (shuffleArray rand fullDeck) 8, nth (shuffleArray rand fullDeck) 13], by rw [hT]; exact rfl, rfl⟩
  · exact ⟨[nth (shuffleArray rand fullDeck) 3, nth (shuffleArray rand fullDeck) 9, nth (shuffleArray rand fullDeck) 14, nth (shuffleArray rand fullDeck) 18], by rw [hT]; exact rfl, rfl⟩
  · exact ⟨[nth (shuffleArray rand fullDeck) 4, nth (shuffleArray rand fullDeck) 10, nth (shuffleArray rand fullDeck) 15, nth (shuffleArray rand fullDeck) 19, nth (shuffleArray rand fullDeck) 22], by rw [hT]; exact rfl, rfl⟩
  · exact ⟨[nth (shuffleArray rand fullDeck) 5, nth (shuffleArray rand fullDeck) 11, nth (shuffleArray rand fullDeck) 16, nth (shuffleArray rand fullDeck) 20, nth (shuffleArray rand fullDeck) 23, nth (shuffleArray rand fullDeck) 25], by rw [hT]; exact rfl, rfl⟩
  · exact ⟨[nth (shuffleArray rand fullDeck) 6, nth (shuffleArray rand fullDeck) 12, nth (shuffleArray rand fullDeck) 17, nth (shuffleArray rand fullDeck) 21, nth (shuffleArray rand fullDeck) 24, nth (shuffleArray rand fullDeck) 26, nth (shuffleArray rand fullDeck) 27], by rw [hT]; exact rfl, rfl⟩

theorem claim_C9_witness :
    ∃ pile, (newGameState (fun _ => 3) (fun _ => 5)).tableauPiles[2]? = some pile ∧
      pile.length = 2 + 1 :=
  claim_C9 (fun _ => 3) (fun _ => 5) 2 (by decide)

end Solitaire

namespace Solitaire

/-- A small concrete position: discard top ♠7, two tableau piles
holding ♥8 and ♠9, every card face-up. -/
def witnessState : GameState :=
  { faceUp := fun _ => true
    drawPile := []
    discardPile := [{ suit := Suit.spade, value := 7 }]
    tableauPiles := [[{ suit := Suit.heart, value := 8 }],
                     [{ suit := Suit.spade, value := 9 }]]
    foundationSpade := 0
    foundationClub := 0
    foundationHeart := 0
    foundationDiamond := 0 }

theorem claim_C3_witness :
    ((playDiscardPileCardToTableau witnessState 0).1 = true ↔
      isValidMoveToAddCardToTableau { suit := Suit.spade, value := 7 }
        [{ suit := Suit.heart, value := 8 }] = true) ∧
    ((moveTableauCardsToAnotherTableau witnessState 0 0 1).1 = true ↔
      isValidMoveToAddCardToTableau { suit := Suit.heart, value := 8 }
        [{ suit := Suit.spade, value := 9 }] = true) :=
  ⟨claim_C3.2.1 witnessState 0 { suit := Suit.spade, value := 7 }
      [{ suit := Suit.heart, value := 8 }] (by decide) (by decide),
   claim_C3.2.2 witnessState 0 0 1 [{ suit := Suit.heart, value := 8 }]
      [{ suit := Suit.spade, value := 9 }] { suit := Suit.heart, value := 8 }
      (by decide) (by decide) (by decide) (by decide)⟩

theorem claim_C4_witness :
    (isValidMoveToAddCardToFoundation witnessState
        { suit := Suit.club, value := 1 } = true ↔
      ({ suit := Suit.club, value := 1 } : Card).value = 1) ∧
    isValidMoveToAddCardToFoundation witnessState
        { suit := Suit.club, value := 2 } = false :=
  ⟨claim_C4.2.1 witnessState { suit := Suit.club, value := 1 } (by decide),
   claim_C4.2.2.1 witnessState { suit := Suit.club, value := 2 }
     (by decide) (by decide)⟩

/-- The empty position: every action with an out-of-range or missing
card fails. -/
def emptyState : GameState :=
  { faceUp := fun _ => false
    drawPile := []
    discardPile := []
    tableauPiles := []
    foundationSpade := 0
    foundationClub := 0
    foundationHeart := 0
    foundationDiamond := 0 }

/-- `witnessState` with a non-empty draw pile, so recycling fails. -/
def drawState : GameState :=
  { witnessState with drawPile := [{ suit := Suit.club, value := 2 }] }

theorem claim_C5_witness :
    (drawCard emptyState).2 = emptyState ∧
    (shuffleDiscardPile drawState).2 = drawState ∧
    (playDiscardPileCardToFoundation emptyState).2 = emptyState ∧
    (playDiscardPileCardToTableau emptyState 0).2 = emptyState ∧
    (flipTopTableauCard emptyState 0).2 = emptyState ∧
    (moveTableauCardsToAnotherTableau emptyState 0 0 0).2 = emptyState ∧
    (moveTableauCardToFoundation emptyState 0).2 = emptyState :=
  ⟨(claim_C5 emptyState).1 (by decide),
   (claim_C5 drawState).2.1 (by decide),
   (claim_C5 emptyState).2.2.1 (by decide),
   (claim_C5 emptyState).2.2.2.1 0 (by decide),
   (claim_C5 emptyState).2.2.2.2.1 0 (by decide),
   (claim_C5 emptyState).2.2.2.2.2.1 0 0 0 (by decide),
   (claim_C5 emptyState).2.2.2.2.2.2 0 (by decide)⟩

/-- A face-down card in the first tableau pile of `witnessState`. -/
def witnessStateDown : GameState :=
  { witnessState with faceUp := fun _ => false }

theorem claim_C8_witness :
    (moveTableauCardsToAnotherTableau witnessStateDown 0 0 1).1 = false ∧
    (moveTableauCardsToAnotherTableau witnessState 0 0 1).2.tableauPiles[0]?
      = some (([{ suit := Suit.heart, value := 8 }] : List Card).take 0) ∧
    (moveTableauCardsToAnotherTableau witnessState 0 0 1).2.tableauPiles[1]?
      = some ([{ suit := Suit.spade, value := 9 }] ++
          ([{ suit := Suit.heart, value := 8 }] : List Card).drop 0) :=
  ⟨(claim_C8 witnessStateDown 0 0 1).1 [{ suit := Suit.heart, value := 8 }]
      { suit := Suit.heart, value := 8 } (by decide) (by decide) (by decide),
   ((claim_C8 witnessState 0 0 1).2.2.1 [{ suit := Suit.heart, value := 8 }]
      [{ suit := Suit.spade, value := 9 }] (by decide) (by decide) (by decide)
      (by decide)).1,
   ((claim_C8 witnessState 0 0 1).2.2.1 [{ suit := Suit.heart, value := 8 }]
      [{ suit := Suit.spade, value := 9 }] (by decide) (by decide) (by decide)
      (by decide)).2.1⟩

end Solitaire
